import Mathlib

/-!
Shallow embedding of the Sears Melvin Memorials lead-intake pipeline:
`src/functions/api/submit.js` (submission endpoint: money model, document
renderers, orchestration) and `src/unnamed/part_004` (worker handler with
the Stripe webhook branch).  JavaScript numbers are modelled as `Option ℚ`
(`none` = NaN, finite decimals only), strings as `String`, absent/`null`
values as `Option`.  External calls are modelled by explicit effect traces
and outcome-describing "world" records.
-/

namespace SearsMelvin

/-! ### String helpers: concatenation of template pieces and containment -/

/-- Left-to-right concatenation of the pieces of a template literal. -/
def sconcat : List String → String
  | [] => ""
  | s :: rest => s ++ sconcat rest

/-- The string `t` occurs as a contiguous substring of `s`. -/
def ContainsStr (s t : String) : Prop := ∃ pre post, s = pre ++ (t ++ post)

/-! ### Executable substring check (for concrete inputs) -/

/-- Boolean test: does the pattern occur as a leading run of the list? -/
def listLeads : List Char → List Char → Bool
  | [], _ => true
  | _ :: _, [] => false
  | a :: as, b :: bs => a == b && listLeads as bs

/-- Boolean test: does the pattern occur anywhere inside the list? -/
def listInside (pat : List Char) : List Char → Bool
  | [] => listLeads pat []
  | c :: cs => listLeads pat (c :: cs) || listInside pat cs

/-- Executable substring containment on strings. -/
def strContains (s pat : String) : Bool := listInside pat.data s.data

/-! ### JavaScript value helpers -/

/-- Truthiness of an optional string (`undefined`/`null` and `""` are falsy). -/
def jsTruthy : Option String → Bool
  | none => false
  | some s => s ≠ ""

/-- Models `x || d` on an optional string. -/
def jsOrStr (o : Option String) (d : String) : String :=
  match o with
  | none => d
  | some s => if s = "" then d else s

/-- Models `String(x ?? "")`. -/
def jsStr (o : Option String) : String := o.getD ""

/-- Models `x || 0` applied to a JavaScript number (`none` = NaN). -/
def orZero : Option ℚ → ℚ
  | none => 0
  | some q => q

/-- JavaScript whitespace characters recognised by `parseFloat`/`parseInt`. -/
def isWsChar (c : Char) : Bool :=
  c = ' ' || c = '\t' || c = '\n' || c = '\r' || c = Char.ofNat 11 || c = Char.ofNat 12

/-- Reads an optional leading sign; returns (isNegative, rest). -/
def readSign : List Char → (Bool × List Char)
  | [] => (false, [])
  | c :: cs =>
      if c = '-' then (true, cs)
      else if c = '+' then (false, cs)
      else (false, c :: cs)

/-- Reads a maximal run of decimal digits, accumulating value and count. -/
def readDigits : List Char → ℕ → ℕ → (ℕ × ℕ × List Char)
  | [], v, n => (v, n, [])
  | c :: cs, v, n =>
      if c.isDigit then readDigits cs (10 * v + (c.toNat - 48)) (n + 1)
      else (v, n, c :: cs)

/-- Reads an optional exponent part (`e`/`E`, sign, digits); an exponent
marker not followed by a digit is ignored, as in JavaScript. -/
def readExpo (cs : List Char) : ℤ :=
  match cs with
  | [] => 0
  | c :: rest =>
      if c = 'e' || c = 'E' then
        let sr := readSign rest
        let dr := readDigits sr.2 0 0
        if dr.2.1 = 0 then 0
        else if sr.1 then -(dr.1 : ℤ) else (dr.1 : ℤ)
      else 0

/-- Models JavaScript `parseFloat` on the character list of a string:
skip leading whitespace, optional sign, a decimal mantissa (digits, optional
point, digits) and an optional exponent, parsing the longest valid prefix;
`none` models NaN (no valid numeric prefix).  Finite decimals only. -/
def parseFloatChars (cs0 : List Char) : Option ℚ :=
  let cs1 := cs0.dropWhile isWsChar
  let sr := readSign cs1
  let ir := readDigits sr.2 0 0
  let fr :=
    match ir.2.2 with
    | c :: rest => if c = '.' then readDigits rest 0 0 else (0, 0, ir.2.2)
    | [] => ((0 : ℕ), (0 : ℕ), ([] : List Char))
  if ir.2.1 + fr.2.1 = 0 then none
  else
    let mant : ℚ := (ir.1 : ℚ) + (fr.1 : ℚ) / ((10 : ℚ) ^ fr.2.1)
    let signed : ℚ := if sr.1 then -mant else mant
    some (signed * (10 : ℚ) ^ readExpo fr.2.2)

/-- Models `parseFloat(x)` where `x` is an optional string
(`parseFloat(undefined)`/`parseFloat(null)` are NaN). -/
def jsParseFloat : Option String → Option ℚ
  | none => none
  | some s => parseFloatChars s.data

/-- Models `parseInt(x, 10)`: skip whitespace, optional sign, a maximal run
of decimal digits; `none` models NaN. -/
def jsParseInt (s : String) : Option ℤ :=
  let cs := s.data.dropWhile isWsChar
  let sr := readSign cs
  let dr := readDigits sr.2 0 0
  if dr.2.1 = 0 then none
  else some (if sr.1 then -(dr.1 : ℤ) else (dr.1 : ℤ))

/-- Models `Math.round` (round half towards positive infinity). -/
def jsRound (q : ℚ) : ℤ := ⌊q + 1 / 2⌋

/-- Rounds half away from zero (the `Intl` default used by
`toLocaleString` with `maximumFractionDigits: 0`). -/
def roundHalfExpand (q : ℚ) : ℤ := if 0 ≤ q then ⌊q + 1 / 2⌋ else -⌊-q + 1 / 2⌋

/-- Inserts a `,` after every three digits; the input is the digit list in
reverse (least significant first) and the output is also reversed. -/
def groupRev : List Char → ℕ → List Char
  | [], _ => []
  | c :: cs, n =>
      if n = 2 ∧ cs ≠ [] then c :: ',' :: groupRev cs 0
      else c :: groupRev cs (n + 1)

/-- Renders a natural number with `en-GB` thousands separators. -/
def natToGrouped (n : ℕ) : String :=
  ⟨(groupRev (Nat.toDigits 10 n).reverse 0).reverse⟩

/-- Models `n.toLocaleString("en-GB", {maximumFractionDigits: 0})`. -/
def jsLocaleInt (q : ℚ) : String :=
  let r := roundHalfExpand q
  (if r < 0 then "-" else "") ++ natToGrouped r.natAbs

/-- Escapes one character for embedding in HTML (`& < > " '`). -/
def escChar (c : Char) : String :=
  if c = '&' then "&amp;"
  else if c = '<' then "&lt;"
  else if c = '>' then "&gt;"
  else if c = '"' then "&quot;"
  else if c = Char.ofNat 39 then "&#39;"
  else String.singleton c

/-- Escapes every character of a string for HTML embedding. -/
def escStr (s : String) : String := sconcat (s.data.map escChar)

/-- Models the source helper `esc`: `String(str ?? "")` followed by the five
chained HTML-special-character replacements. -/
def esc (o : Option String) : String := escStr (jsStr o)

/-- Models `.replace(/\n/g, "<br>")`. -/
def nl2br (s : String) : String :=
  sconcat (s.data.map (fun c => if c = '\n' then "<br>" else String.singleton c))

/-- Models JavaScript `String.prototype.trim`. -/
def jsTrim (s : String) : String :=
  ⟨((s.data.dropWhile isWsChar).reverse.dropWhile isWsChar).reverse⟩

/-- Splits a character list at every occurrence of the separator, as
JavaScript `split` with a one-character separator. -/
def splitChar (sep : Char) : List Char → List (List Char)
  | [] => [[]]
  | c :: rest =>
      match splitChar sep rest with
      | [] => [[]]
      | h :: t => if c = sep then [] :: h :: t else (c :: h) :: t

/-- Models `s.split(sep)` for a one-character separator. -/
def strSplit (s : String) (sep : Char) : List String :=
  (splitChar sep s.data).map fun l => ⟨l⟩

/-- Models `s.startsWith(p)`. -/
def strLeads (s p : String) : Bool := listLeads p.data s.data

/-- Models `s.slice(n)` (drop the first `n` characters). -/
def strSlice (s : String) (n : ℕ) : String := ⟨s.data.drop n⟩

/-! ### Data model (inbound submission payload, `src/functions/api/submit.js`) -/

/-- One entry of `product.addonLineItems`: `{name, price}`, either possibly
absent. -/
structure AddonItem where
  name : Option String
  price : Option String
  deriving DecidableEq

/-- The `product` object of a Quote submission. -/
structure Product where
  name : Option String := none
  type : Option String := none
  colour : Option String := none
  size : Option String := none
  image : Option String := none
  inscription : Option String := none
  price : Option String := none
  addonLineItems : Option (List AddonItem) := none
  addons : Option (List String) := none

/-- The parsed JSON body of a submission request. -/
structure SubmitData where
  type : Option String := none
  name : Option String := none
  email : Option String := none
  phone : Option String := none
  cemetery : Option String := none
  message : Option String := none
  location : Option String := none
  enquiry_type : Option String := none
  payment_preference : Option String := none
  product : Option Product := none

/-- Business constants from the top of `submit.js`. -/
def BUSINESS_EMAIL : String := "info@searsmelvin.co.uk"

def FROM_EMAIL : String := "info@searsmelvin.co.uk"

def BUSINESS_NAME : String := "Sears Melvin Memorials"

def CLICKUP_LIST_ID : String := "901207633256"

/-- The `STONE_COLOURS` lookup table (stone colour name to hex). -/
def STONE_COLOURS (c : String) : Option String :=
  if c = "Black Galaxy" then some "#1a1a1a"
  else if c = "Rustenberg Grey" then some "#6b6b6b"
  else if c = "Vizag Blue" then some "#2c3e50"
  else if c = "Indian Aurora" then some "#8B5A2B"
  else if c = "Emerald Pearl" then some "#2d4a3e"
  else if c = "Ruby Red" then some "#722F37"
  else none

/-- Models `STONE_COLOURS[product.colour] || "#8B7355"`. -/
def stoneHexOf (colour : Option String) : String :=
  jsOrStr (colour.bind STONE_COLOURS) "#8B7355"

/-! ### Money model (price breakdown in `quoteBusinessEmail` /
`quoteCustomerEmail`, `submit.js` lines 170-179 and 387-395) -/

/-- Fallback add-on list: each bare `addons` entry wrapped as
`{name: n, price: null}`. -/
def addonsFallback (p : Product) : List AddonItem :=
  match p.addons with
  | some l => if l.isEmpty then [] else l.map (fun n => ⟨some n, none⟩)
  | none => []

/-- Models the `addonItems` selection: `addonLineItems` when non-empty, else
the wrapped `addons`, else `[]`. -/
def addonItemsOf (p : Product) : List AddonItem :=
  match p.addonLineItems with
  | some items => if items.isEmpty then addonsFallback p else items
  | none => addonsFallback p

/-- Models `const totalPrice = parseFloat(product.price) || 0` (the grand
total). -/
def totalPrice (p : Product) : ℚ := orZero (jsParseFloat p.price)

/-- Models `addonItems.reduce((s, a) => s + (parseFloat(a.price) || 0), 0)`. -/
def addonTotal (p : Product) : ℚ :=
  (addonItemsOf p).foldl (fun s a => s + orZero (jsParseFloat a.price)) 0

/-- Models `const basePrice = Math.max(0, totalPrice - addonTotal)`. -/
def basePrice (p : Product) : ℚ := max 0 (totalPrice p - addonTotal p)

/-! ### Stripe invoice line items (`createStripeInvoice`,
`submit.js` lines 750-773); `none` marks a NaN-poisoned amount, which the
payment processor rejects, aborting issuance -/

/-- Models `parseFloat(x || 0)`: an absent or empty value falls back to the
number `0`; a non-empty string is parsed (NaN possible). -/
def pfOrZeroJs (o : Option String) : Option ℚ :=
  match o with
  | none => some 0
  | some s => if s = "" then some 0 else parseFloatChars s.data

/-- Models `Math.round(x * 100)` on a possibly-NaN number. -/
def mulRound100 : Option ℚ → Option ℤ
  | none => none
  | some q => some (jsRound (q * 100))

/-- Models `const totalPricePence = Math.round(parseFloat(product.price || 0) * 100)`. -/
def totalPricePence (p : Product) : Option ℤ := mulRound100 (pfOrZeroJs p.price)

/-- Models the Stripe-side `addonItems` (only `addonLineItems`, no bare-addons
fallback). -/
def stripeAddonItems (p : Product) : List AddonItem :=
  match p.addonLineItems with
  | some items => if items.isEmpty then [] else items
  | none => []

/-- Minor-unit amount of one add-on: `Math.round(parseFloat(a.price || 0) * 100)`. -/
def addonPence (a : AddonItem) : Option ℤ := mulRound100 (pfOrZeroJs a.price)

/-- NaN-propagating addition on minor-unit amounts. -/
def optAddZ : Option ℤ → Option ℤ → Option ℤ
  | some a, some b => some (a + b)
  | _, _ => none

/-- Models `addonItems.reduce((sum, a) => sum + Math.round(parseFloat(a.price || 0) * 100), 0)`. -/
def addonTotalPence (p : Product) : Option ℤ :=
  (stripeAddonItems p).foldl (fun s a => optAddZ s (addonPence a)) (some 0)

/-- Models `const basePricePence = Math.max(0, totalPricePence - addonTotalPence)`. -/
def basePricePence (p : Product) : Option ℤ :=
  match totalPricePence p, addonTotalPence p with
  | some t, some a => some (max 0 (t - a))
  | _, _ => none

/-- The minor-unit amounts of the invoice items posted by
`createStripeInvoice`, in order: the base line, one line per add-on with
positive minor-unit price, and a zero-amount line per bare `addons` entry
when no priced line items exist.  `none` when a NaN amount aborts
issuance at the base line. -/
def stripeLineAmounts (p : Product) : Option (List ℤ) :=
  match basePricePence p with
  | none => none
  | some base =>
      some (base ::
        ((stripeAddonItems p).filterMap fun a =>
          match addonPence a with
          | some n => if 0 < n then some n else none
          | none => none)
        ++ (if (stripeAddonItems p).isEmpty then
              (match p.addons with
               | some l => if l.isEmpty then [] else l.map (fun _ => (0 : ℤ))
               | none => [])
            else []))

/-- Models the helper `formatPrice`: a parseable price is rendered with
`en-GB` grouping and no decimals; otherwise the raw string, or an em-dash
when absent/empty. -/
def formatPrice (o : Option String) : String :=
  match jsParseFloat o with
  | none => jsOrStr o "—"
  | some n => jsLocaleInt n

/-! ### Document renderers (pure template functions of `submit.js`).
Each template literal is modelled as `sconcat` of its pieces, literal
chunks interleaved with the interpolated expressions, in source order. -/

/-- Template interpolation `${x}` of a possibly-absent string (JavaScript
renders `undefined` for an absent value). -/
def jsInterp : Option String → String
  | none => "undefined"
  | some s => s

/-- Models `x.toLocaleString("en-GB", {maximumFractionDigits: 0})` on a
possibly-NaN number. -/
def jsLocaleNum : Option ℚ → String
  | none => "NaN"
  | some q => jsLocaleInt q

/-- Models `Array.prototype.join(sep)`. -/
def jsJoin (sep : String) : List String → String
  | [] => ""
  | [s] => s
  | s :: rest => s ++ sep ++ jsJoin sep rest

/-- Models the filter `a => parseFloat(a.price) > 0` (NaN compares false). -/
def addonPricePos (a : AddonItem) : Bool :=
  match jsParseFloat a.price with
  | some q => decide (0 < q)
  | none => false

/-- Models the filter `a => !(parseFloat(a.price) > 0) && a.name`. -/
def addonUnpriced (a : AddonItem) : Bool :=
  !addonPricePos a && jsTruthy a.name

/-- Models `const inscription = product.inscription ? product.inscription.trim() : ""`. -/
def inscriptionOf (p : Product) : String :=
  match p.inscription with
  | none => ""
  | some s => if s = "" then "" else jsTrim s

/-- Models `const rawImage = product.image && product.image.trim() ? product.image.trim() : ""`. -/
def rawImageOf (p : Product) : String :=
  match p.image with
  | none => ""
  | some s => if s = "" then "" else if jsTrim s = "" then "" else jsTrim s

/-- Models the `imageUrl` computation: an `http(s)` reference is kept as is,
any other non-empty reference is prefixed with the site origin. -/
def imageUrlOf (p : Product) : String :=
  let rawImage := rawImageOf p
  if strLeads rawImage "http" then rawImage
  else if rawImage = "" then ""
  else "https://searsmelvin.co.uk" ++ (if strLeads rawImage "/" then "" else "/") ++ rawImage

/-- The argument record of `quoteBusinessEmail` (the fields it destructures). -/
structure QuoteEmailArgs where
  name : Option String := none
  email : Option String := none
  phone : Option String := none
  message : Option String := none
  location : Option String := none
  product : Product := {}
  stoneHex : String := ""
  submittedAt : Option String := none
  invoiceOnly : Bool := false
  stripeInvoiceUrl : Option String := none

/-- The argument record of `quoteCustomerEmail`. -/
structure QuoteCustomerArgs where
  firstName : Option String := none
  product : Product := {}
  stoneHex : String := ""
  invoiceOnly : Bool := false
  stripeInvoiceUrl : Option String := none

/-- Product-image block of the business notification email (rendered when `imageUrl` is non-empty). -/
def qbeImage (a : QuoteEmailArgs) : String :=
  sconcat [
    "<!-- Product image -->
                  <table role=\"presentation\" width=\"100%\" cellpadding=\"0\" cellspacing=\"0\" border=\"0\" style=\"margin-bottom:16px;\">
                    <tr>
                      <td align=\"center\" style=\"background-color:#F5F3F0;border:1px solid #E0DCD5;border-radius:6px;padding:12px;\">
                        <img ",
    "src=\"",
    imageUrlOf a.product,
    "\"",
    " alt=\"",
    escStr (jsOrStr a.product.name "Memorial"),
    "\" width=\"200\" style=\"display:block;width:200px;max-width:100%;height:auto;border-radius:4px;\" />
                      </td>
                    </tr>
                  </table>"
  ]

/-- Size row of the business notification email. -/
def qbeSizeRow (a : QuoteEmailArgs) : String :=
  sconcat [
    "<tr>
                      <td style=\"color:#999999;padding:4px 0;vertical-align:top;\">Size</td>
                      <td style=\"color:#1A1A1A;padding:4px 0;\">",
    esc a.product.size,
    "</td>
                    </tr>"
  ]

/-- One priced add-on row of the business notification email. -/
def qbePricedRow (item : AddonItem) : String :=
  sconcat [
    "<tr>
                      <td style=\"padding:8px 10px;color:#555555;border-bottom:1px solid #F0EDE8;\">",
    esc item.name,
    "</td>
                      <td align=\"right\" style=\"padding:8px 10px;color:#555555;border-bottom:1px solid #F0EDE8;white-space:nowrap;\">+£",
    jsLocaleNum (jsParseFloat item.price),
    "</td>
                    </tr>"
  ]

/-- One unpriced add-on row of the business notification email (price cell shows an em-dash). -/
def qbeUnpricedRow (item : AddonItem) : String :=
  sconcat [
    "<tr>
                      <td style=\"padding:8px 10px;color:#555555;border-bottom:1px solid #F0EDE8;\">",
    esc item.name,
    "</td>
                      <td align=\"right\" style=\"padding:8px 10px;color:#555555;border-bottom:1px solid #F0EDE8;white-space:nowrap;\">—</td>
                    </tr>"
  ]

/-- Inscription block of the business notification email. -/
def qbeInscription (a : QuoteEmailArgs) : String :=
  sconcat [
    "<!-- Inscription -->
                  <table role=\"presentation\" width=\"100%\" cellpadding=\"0\" cellspacing=\"0\" border=\"0\" style=\"margin-top:12px;\">
                    <tr>
                      <td style=\"background-color:#FAF8F5;border-left:3px solid #D4AF37;padding:8px 12px;font-family:Georgia,Times New Roman,serif;font-style:italic;color:#2C2C2C;font-size:13px;line-height:1.6;\">",
    nl2br (escStr (inscriptionOf a.product)),
    "</td>
                    </tr>
                  </table>"
  ]

/-- Cemetery row of the business notification email. -/
def qbeLocationRow (a : QuoteEmailArgs) : String :=
  sconcat [
    "<tr>
                <td style=\"padding:5px 0;color:#999999;vertical-align:top;\">Cemetery</td>
                <td style=\"padding:5px 0;color:#1A1A1A;\">",
    esc a.location,
    "</td>
              </tr>"
  ]

/-- Invoice call-to-action block of the business notification email. -/
def qbeInvoiceCta (a : QuoteEmailArgs) : String :=
  sconcat [
    "<!-- Invoice CTA button — prominent coloured row -->
        <tr>
          <td style=\"padding:20px 28px;\">
            <table role=\"presentation\" width=\"100%\" cellpadding=\"0\" cellspacing=\"0\" border=\"0\">
              <tr>
                <td align=\"center\" style=\"background-color:#8B7355;border-radius:8px;padding:16px 20px;\">
                  <a ",
    "href=\"",
    jsInterp a.stripeInvoiceUrl,
    "\"",
    " style=\"font-family:Arial,sans-serif;font-size:15px;font-weight:700;color:#ffffff;text-decoration:none;display:block;\">View &amp; Pay Invoice &rarr;</a>
                </td>
              </tr>
            </table>
          </td>
        </tr>"
  ]

/-- Customer-notes block of the business notification email. -/
def qbeMessage (a : QuoteEmailArgs) : String :=
  sconcat [
    "<!-- Customer notes -->
        <tr>
          <td style=\"padding:12px 28px 24px;\">
            <p style=\"font-size:10px;letter-spacing:0.08em;text-transform:uppercase;color:#8B7355;font-weight:700;margin:0 0 10px 0;font-family:Arial,sans-serif;\">Customer Notes</p>
            <table role=\"presentation\" width=\"100%\" cellpadding=\"0\" cellspacing=\"0\" border=\"0\">
              <tr>
                <td style=\"background-color:#F5F3F0;border-radius:6px;padding:14px 16px;font-size:13px;color:#1A1A1A;line-height:1.7;font-family:Arial,sans-serif;\">",
    nl2br (esc a.message),
    "</td>
              </tr>
            </table>
          </td>
        </tr>"
  ]

/-- The business notification email document for a Quote (`quoteBusinessEmail` in `submit.js`). -/
def quoteBusinessEmail (a : QuoteEmailArgs) : String :=
  sconcat [
    "<!DOCTYPE html>
<html lang=\"en\">
<head>
  <meta charset=\"UTF-8\">
  <meta name=\"viewport\" content=\"width=device-width,initial-scale=1\">
  <meta http-equiv=\"Content-Type\" content=\"text/html; charset=UTF-8\">
</head>
<body style=\"margin:0;padding:0;background-color:#F5F3F0;font-family:Arial,Helvetica,sans-serif;\">
<table role=\"presentation\" width=\"100%\" cellpadding=\"0\" cellspacing=\"0\" border=\"0\" style=\"background-color:#F5F3F0;padding:24px 0;\">
  <tr>
    <td align=\"center\">
      <table role=\"presentation\" width=\"620\" cellpadding=\"0\" cellspacing=\"0\" border=\"0\" style=\"max-width:620px;width:100%;background-color:#ffffff;border-radius:10px;overflow:hidden;\">

        <!-- Header -->
        <tr>
          <td style=\"background-color:#2C2C2C;padding:18px 28px;\">
            <table role=\"presentation\" width=\"100%\" cellpadding=\"0\" cellspacing=\"0\" border=\"0\">
              <tr>
                <td style=\"font-family:Georgia,Times New Roman,serif;font-size:18px;color:#ffffff;font-weight:normal;\">
                  Sears Melvin <span style=\"opacity:0.55;font-weight:300;\">Memorials</span>
                </td>
                <td align=\"right\">
                  <span style=\"background-color:#8B7355;color:#ffffff;padding:5px 12px;border-radius:3px;font-size:11px;font-weight:700;letter-spacing:0.06em;text-transform:uppercase;font-family:Arial,sans-serif;\">",
    (if a.invoiceOnly then "Invoice Request" else "New Quote"),
    "</span>
                </td>
              </tr>
            </table>
          </td>
        </tr>

        <!-- Title row -->
        <tr>
          <td style=\"padding:26px 28px 4px;\">
            <h2 style=\"font-family:Georgia,Times New Roman,serif;font-size:22px;color:#2C2C2C;font-weight:normal;margin:0 0 4px 0;\">",
    (if a.invoiceOnly then "Invoice Request" else "New Quote Request"),
    "</h2>
            <p style=\"color:#AAAAAA;font-size:12px;margin:0;font-family:Arial,sans-serif;\">Received ",
    esc a.submittedAt,
    "</p>
          </td>
        </tr>

        <!-- Memorial Configuration card -->
        <tr>
          <td style=\"padding:20px 28px 0;\">
            <table role=\"presentation\" width=\"100%\" cellpadding=\"0\" cellspacing=\"0\" border=\"0\" style=\"border:1px solid #E0DCD5;border-radius:8px;border-collapse:separate;\">
              <tr>
                <td width=\"6\" style=\"background-color:",
    a.stoneHex,
    ";border-radius:8px 0 0 8px;\">&nbsp;</td>
                <td style=\"padding:18px 20px;\">

                  <!-- Section label -->
                  <p style=\"font-size:10px;letter-spacing:0.1em;text-transform:uppercase;color:#8B7355;font-weight:700;margin:0 0 6px 0;font-family:Arial,sans-serif;\">Memorial Configuration</p>

                  <!-- Product name -->
                  <p style=\"font-family:Georgia,Times New Roman,serif;font-size:20px;color:#2C2C2C;margin:0 0 14px 0;\">",
    escStr (jsOrStr a.product.name "—"),
    "</p>

                  ",
    (if imageUrlOf a.product = "" then "" else qbeImage a),
    "

                  <!-- Spec rows -->
                  <table role=\"presentation\" width=\"100%\" cellpadding=\"0\" cellspacing=\"0\" border=\"0\" style=\"font-size:13px;font-family:Arial,sans-serif;margin-bottom:0;\">
                    <tr>
                      <td width=\"130\" style=\"color:#999999;padding:4px 0;vertical-align:top;\">Type</td>
                      <td style=\"color:#1A1A1A;padding:4px 0;\">",
    escStr (jsOrStr a.product.type "—"),
    "</td>
                    </tr>
                    <tr>
                      <td style=\"color:#999999;padding:4px 0;vertical-align:top;\">Stone colour</td>
                      <td style=\"color:#1A1A1A;padding:4px 0;\">
                        <span style=\"display:inline-block;width:10px;height:10px;border-radius:50%;background-color:",
    a.stoneHex,
    ";vertical-align:middle;margin-right:5px;border:1px solid rgba(0,0,0,0.15);\"></span>",
    escStr (jsOrStr a.product.colour "—"),
    "
                      </td>
                    </tr>
                    ",
    (if jsTruthy a.product.size then qbeSizeRow a else ""),
    "
                  </table>

                  <!-- Line items table -->
                  <table role=\"presentation\" width=\"100%\" cellpadding=\"0\" cellspacing=\"0\" border=\"0\" style=\"font-size:13px;font-family:Arial,sans-serif;margin-top:14px;border-top:1px solid #E0DCD5;\">

                    <!-- Header row -->
                    <tr style=\"background-color:#F5F3F0;\">
                      <td style=\"padding:8px 10px;color:#999999;font-size:11px;letter-spacing:0.05em;text-transform:uppercase;\">Item</td>
                      <td width=\"80\" align=\"right\" style=\"padding:8px 10px;color:#999999;font-size:11px;letter-spacing:0.05em;text-transform:uppercase;\">Price</td>
                    </tr>

                    <!-- Base memorial row -->
                    <tr>
                      <td style=\"padding:8px 10px;color:#1A1A1A;border-bottom:1px solid #F0EDE8;\">",
    escStr (jsOrStr a.product.name "Memorial"),
    " (inc. installation &amp; permit)</td>
                      <td align=\"right\" style=\"padding:8px 10px;color:#1A1A1A;border-bottom:1px solid #F0EDE8;font-weight:500;white-space:nowrap;\">£",
    jsLocaleInt (basePrice a.product),
    "</td>
                    </tr>

                    ",
    sconcat (((addonItemsOf a.product).filter addonPricePos).map qbePricedRow),
    "

                    ",
    sconcat (((addonItemsOf a.product).filter addonUnpriced).map qbeUnpricedRow),
    "

                    <!-- Total row -->
                    <tr style=\"background-color:#F5F3F0;\">
                      <td style=\"padding:9px 10px;color:#2C2C2C;font-weight:700;\">Total (fully installed)</td>
                      <td align=\"right\" style=\"padding:9px 10px;color:#2C2C2C;font-weight:700;font-size:15px;white-space:nowrap;\">£",
    jsLocaleInt (totalPrice a.product),
    "</td>
                    </tr>

                  </table>

                  ",
    (if inscriptionOf a.product = "" then "" else qbeInscription a),
    "

                </td>
              </tr>
            </table>
          </td>
        </tr>

        <!-- Divider -->
        <tr>
          <td style=\"padding:16px 28px 0;\">
            <table role=\"presentation\" width=\"100%\" cellpadding=\"0\" cellspacing=\"0\" border=\"0\">
              <tr><td style=\"border-top:1px solid #E0DCD5;font-size:0;line-height:0;\">&nbsp;</td></tr>
            </table>
          </td>
        </tr>

        <!-- Customer section -->
        <tr>
          <td style=\"padding:16px 28px ",
    (if jsTruthy a.message then "0" else "24px"),
    ";\">
            <p style=\"font-size:10px;letter-spacing:0.08em;text-transform:uppercase;color:#8B7355;font-weight:700;margin:0 0 12px 0;font-family:Arial,sans-serif;\">Customer</p>
            <table role=\"presentation\" width=\"100%\" cellpadding=\"0\" cellspacing=\"0\" border=\"0\" style=\"font-size:13px;font-family:Arial,sans-serif;\">
              <tr>
                <td width=\"120\" style=\"padding:5px 0;color:#999999;vertical-align:top;\">Name</td>
                <td style=\"padding:5px 0;color:#1A1A1A;font-weight:600;\">",
    esc a.name,
    "</td>
              </tr>
              <tr>
                <td style=\"padding:5px 0;color:#999999;vertical-align:top;\">Email</td>
                <td style=\"padding:5px 0;\"><a href=\"mailto:",
    esc a.email,
    "\" style=\"color:#8B7355;text-decoration:none;\">",
    esc a.email,
    "</a></td>
              </tr>
              <tr>
                <td style=\"padding:5px 0;color:#999999;vertical-align:top;\">Phone</td>
                <td style=\"padding:5px 0;color:#1A1A1A;\">",
    escStr (jsOrStr a.phone "Not provided"),
    "</td>
              </tr>
              ",
    (if jsTruthy a.location then qbeLocationRow a else ""),
    "
            </table>
          </td>
        </tr>

        ",
    (if a.invoiceOnly && jsTruthy a.stripeInvoiceUrl then qbeInvoiceCta a else ""),
    "

        ",
    (if jsTruthy a.message then qbeMessage a else ""),
    "

        <!-- Footer -->
        <tr>
          <td style=\"background-color:#F5F3F0;border-top:1px solid #E0DCD5;padding:14px 28px;text-align:center;\">
            <span style=\"font-size:11px;color:#BBBBBB;font-family:Arial,sans-serif;\">Sears Melvin Memorials &middot; South London &amp; Beyond &middot; <a href=\"mailto:",
    BUSINESS_EMAIL,
    "\" style=\"color:#BBBBBB;text-decoration:none;\">",
    BUSINESS_EMAIL,
    "</a></span>
          </td>
        </tr>

      </table>
    </td>
  </tr>
</table>
</body>
</html>"
  ]

/-- Product-image block of the customer confirmation email. -/
def qceImage (c : QuoteCustomerArgs) : String :=
  sconcat [
    "<table role=\"presentation\" width=\"100%\" cellpadding=\"0\" cellspacing=\"0\" border=\"0\" style=\"margin-bottom:16px;\">
                    <tr>
                      <td align=\"center\" style=\"background-color:#ffffff;border:1px solid #E0DCD5;border-radius:6px;padding:12px;\">
                        <img ",
    "src=\"",
    imageUrlOf c.product,
    "\"",
    " alt=\"",
    escStr (jsOrStr c.product.name "Memorial"),
    "\" width=\"200\" style=\"display:block;width:200px;max-width:100%;height:auto;border-radius:4px;\" />
                      </td>
                    </tr>
                  </table>"
  ]

/-- Size row of the customer confirmation email. -/
def qceSizeRow (c : QuoteCustomerArgs) : String :=
  sconcat [
    "<tr>
                      <td style=\"color:#999999;padding:3px 0;vertical-align:top;\">Size</td>
                      <td style=\"color:#2C2C2C;\">",
    esc c.product.size,
    "</td>
                    </tr>"
  ]

/-- One priced add-on row of the customer confirmation email. -/
def qcePricedRow (item : AddonItem) : String :=
  sconcat [
    "<tr>
                      <td style=\"padding:8px 0;color:#555555;border-bottom:1px solid #F0EDE8;\">",
    esc item.name,
    "</td>
                      <td align=\"right\" style=\"padding:8px 0;color:#555555;border-bottom:1px solid #F0EDE8;white-space:nowrap;\">+£",
    jsLocaleNum (jsParseFloat item.price),
    "</td>
                    </tr>"
  ]

/-- One unpriced add-on row of the customer confirmation email. -/
def qceUnpricedRow (item : AddonItem) : String :=
  sconcat [
    "<tr>
                      <td style=\"padding:8px 0;color:#555555;border-bottom:1px solid #F0EDE8;\">",
    esc item.name,
    "</td>
                      <td align=\"right\" style=\"padding:8px 0;color:#555555;border-bottom:1px solid #F0EDE8;white-space:nowrap;\">—</td>
                    </tr>"
  ]

/-- Invoice call-to-action block of the customer confirmation email: a payment link whose `href` is exactly the hosted invoice URL. -/
def qceInvoiceCta (c : QuoteCustomerArgs) : String :=
  sconcat [
    "<!-- Invoice CTA button — prominent full-width coloured button -->
        <tr>
          <td style=\"padding:0 28px 24px;\">
            <table role=\"presentation\" width=\"100%\" cellpadding=\"0\" cellspacing=\"0\" border=\"0\">
              <tr>
                <td align=\"center\" style=\"background-color:#8B7355;border-radius:8px;padding:0;\">
                  <a ",
    "href=\"",
    jsInterp c.stripeInvoiceUrl,
    "\"",
    " style=\"display:block;padding:16px 28px;font-family:Arial,sans-serif;font-size:16px;font-weight:700;color:#ffffff;text-decoration:none;text-align:center;border-radius:8px;\">View &amp; Pay Invoice &rarr;</a>
                </td>
              </tr>
              <tr>
                <td style=\"padding:8px 0 0;text-align:center;\">
                  <span style=\"font-family:Arial,sans-serif;color:#888888;font-size:12px;\">Your invoice is ready. Pay at any time before the due date.</span>
                </td>
              </tr>
            </table>
          </td>
        </tr>"
  ]

/-- The customer confirmation email document for a Quote (`quoteCustomerEmail` in `submit.js`). -/
def quoteCustomerEmail (c : QuoteCustomerArgs) : String :=
  sconcat [
    "<!DOCTYPE html>
<html lang=\"en\">
<head>
  <meta charset=\"UTF-8\">
  <meta name=\"viewport\" content=\"width=device-width,initial-scale=1\">
  <meta http-equiv=\"Content-Type\" content=\"text/html; charset=UTF-8\">
</head>
<body style=\"margin:0;padding:0;background-color:#F5F3F0;font-family:Arial,Helvetica,sans-serif;\">
<table role=\"presentation\" width=\"100%\" cellpadding=\"0\" cellspacing=\"0\" border=\"0\" style=\"background-color:#F5F3F0;padding:24px 0;\">
  <tr>
    <td align=\"center\">
      <table role=\"presentation\" width=\"580\" cellpadding=\"0\" cellspacing=\"0\" border=\"0\" style=\"max-width:580px;width:100%;background-color:#ffffff;border-radius:10px;overflow:hidden;\">

        <!-- Header -->
        <tr>
          <td style=\"background-color:#2C2C2C;padding:20px 28px;\">
            <table role=\"presentation\" width=\"100%\" cellpadding=\"0\" cellspacing=\"0\" border=\"0\">
              <tr>
                <td style=\"font-family:Georgia,Times New Roman,serif;font-size:18px;color:#ffffff;font-weight:normal;\">
                  Sears Melvin <span style=\"opacity:0.55;font-weight:300;\">Memorials</span>
                </td>
                <td align=\"right\">
                  <span style=\"background-color:#8B7355;color:#ffffff;padding:5px 12px;border-radius:3px;font-size:11px;font-weight:700;letter-spacing:0.06em;text-transform:uppercase;font-family:Arial,sans-serif;\">",
    (if c.invoiceOnly then "Invoice Request" else "Quote Request"),
    "</span>
                </td>
              </tr>
            </table>
          </td>
        </tr>

        <!-- Thank you message -->
        <tr>
          <td style=\"padding:30px 28px 0;\">
            <h2 style=\"font-family:Georgia,Times New Roman,serif;font-size:23px;color:#2C2C2C;font-weight:normal;margin:0 0 14px 0;\">Thank you, ",
    esc c.firstName,
    ".</h2>
            <p style=\"color:#555555;font-size:15px;line-height:1.7;margin:0 0 22px 0;font-family:Arial,sans-serif;\">We\x27ve received your ",
    (if c.invoiceOnly then "invoice request" else "quote request"),
    " for the <strong style=\"color:#2C2C2C;\">",
    escStr (jsOrStr c.product.name "memorial"),
    "</strong> and our team will be in touch within 24 hours.</p>
          </td>
        </tr>

        <!-- Quote summary card -->
        <tr>
          <td style=\"padding:0 28px 24px;\">
            <table role=\"presentation\" width=\"100%\" cellpadding=\"0\" cellspacing=\"0\" border=\"0\" style=\"background-color:#FAF8F5;border:1px solid #E0DCD5;border-radius:8px;border-collapse:separate;\">
              <tr>
                <td width=\"6\" style=\"background-color:",
    c.stoneHex,
    ";border-radius:8px 0 0 8px;\">&nbsp;</td>
                <td style=\"padding:16px 18px;\">

                  <p style=\"font-size:10px;letter-spacing:0.1em;text-transform:uppercase;color:#8B7355;font-weight:700;margin:0 0 6px 0;font-family:Arial,sans-serif;\">Your Order Summary</p>
                  <p style=\"font-family:Georgia,Times New Roman,serif;font-size:18px;color:#2C2C2C;margin:0 0 14px 0;\">",
    escStr (jsOrStr c.product.name "—"),
    "</p>

                  ",
    (if imageUrlOf c.product = "" then "" else qceImage c),
    "

                  <!-- Spec rows -->
                  <table role=\"presentation\" width=\"100%\" cellpadding=\"0\" cellspacing=\"0\" border=\"0\" style=\"font-size:13px;font-family:Arial,sans-serif;margin-bottom:12px;\">
                    <tr>
                      <td width=\"110\" style=\"color:#999999;padding:3px 0;vertical-align:top;\">Type</td>
                      <td style=\"color:#2C2C2C;\">",
    escStr (jsOrStr c.product.type "—"),
    "</td>
                    </tr>
                    <tr>
                      <td style=\"color:#999999;padding:3px 0;vertical-align:top;\">Stone colour</td>
                      <td style=\"color:#2C2C2C;\">
                        <span style=\"display:inline-block;width:10px;height:10px;border-radius:50%;background-color:",
    c.stoneHex,
    ";vertical-align:middle;margin-right:5px;border:1px solid rgba(0,0,0,0.15);\"></span>",
    escStr (jsOrStr c.product.colour "—"),
    "
                      </td>
                    </tr>
                    ",
    (if jsTruthy c.product.size then qceSizeRow c else ""),
    "
                  </table>

                  <!-- Price breakdown -->
                  <table role=\"presentation\" width=\"100%\" cellpadding=\"0\" cellspacing=\"0\" border=\"0\" style=\"font-size:13px;font-family:Arial,sans-serif;border-top:1px solid #E0DCD5;\">
                    <tr>
                      <td style=\"padding:8px 0;color:#555555;border-bottom:1px solid #F0EDE8;\">",
    escStr (jsOrStr c.product.name "Memorial"),
    " (inc. installation)</td>
                      <td align=\"right\" style=\"padding:8px 0;color:#555555;border-bottom:1px solid #F0EDE8;white-space:nowrap;\">£",
    jsLocaleInt (basePrice c.product),
    "</td>
                    </tr>

                    ",
    sconcat (((addonItemsOf c.product).filter addonPricePos).map qcePricedRow),
    "

                    ",
    sconcat (((addonItemsOf c.product).filter addonUnpriced).map qceUnpricedRow),
    "

                    <tr>
                      <td style=\"padding:9px 0 3px;color:#2C2C2C;font-weight:700;\">Total (fully installed)</td>
                      <td align=\"right\" style=\"padding:9px 0 3px;color:#2C2C2C;font-weight:700;font-size:15px;white-space:nowrap;\">£",
    jsLocaleInt (totalPrice c.product),
    "</td>
                    </tr>
                  </table>

                </td>
              </tr>
            </table>
          </td>
        </tr>

        ",
    (if c.invoiceOnly && jsTruthy c.stripeInvoiceUrl then qceInvoiceCta c else ""),
    "

        <!-- Contact / sign-off -->
        <tr>
          <td style=\"padding:0 28px 32px;\">
            <p style=\"color:#555555;font-size:14px;line-height:1.7;margin:0 0 10px 0;font-family:Arial,sans-serif;\">If you have any urgent questions, please call us on <strong style=\"color:#2C2C2C;\">01268 208 559</strong>.</p>
            <p style=\"color:#888888;font-size:13px;margin:0;line-height:1.7;font-family:Arial,sans-serif;\">With care,<br><strong style=\"color:#2C2C2C;\">The Sears Melvin Team</strong></p>
          </td>
        </tr>

        <!-- Footer -->
        <tr>
          <td style=\"background-color:#1A1A1A;padding:16px 28px;text-align:center;border-radius:0 0 10px 10px;\">
            <span style=\"font-size:11px;color:rgba(255,255,255,0.35);font-family:Arial,sans-serif;\">Sears Melvin Memorials &middot; South London &amp; Beyond &middot; ",
    BUSINESS_EMAIL,
    "</span>
          </td>
        </tr>

      </table>
    </td>
  </tr>
</table>
</body>
</html>"
  ]


/-! ### Plain-text task description (`buildQuoteClickUpDescription`) -/

/-- The plain-text ClickUp task description for a Quote.  User text is
embedded verbatim (no escaping); the entries are joined with newlines. -/
def buildQuoteClickUpDescription (name email phone message : Option String)
    (product : Product) (submittedAt : Option String) : String :=
  let addons :=
    match product.addons with
    | some l => if l.isEmpty then "None" else jsJoin ", " l
    | none => "None"
  jsJoin "\n" [
    "=== QUOTE REQUEST ===", "",
    "PRODUCT SELECTED",
    "• Memorial: " ++ jsOrStr product.name "—",
    "• Type: " ++ jsOrStr product.type "—",
    "• Stone: " ++ jsOrStr product.colour "—",
    "• Size: " ++ jsOrStr product.size "—",
    "• Extras: " ++ addons,
    (if jsTruthy product.inscription then
      "• Inscription: \"" ++ jsInterp product.inscription ++ "\"" else ""),
    "• Guide total: £" ++ formatPrice product.price, "",
    "CUSTOMER",
    "• Name: " ++ jsInterp name,
    "• Email: " ++ jsInterp email,
    "• Phone: " ++ jsOrStr phone "Not provided", "",
    (if jsTruthy message then "CUSTOMER NOTES\n\"" ++ jsInterp message ++ "\"" else ""), "",
    "---",
    "Submitted: " ++ jsInterp submittedAt
  ]

/-! ### Record-store adapter (`insertSupabaseRecord`) -/

/-- The environment bindings read by `submit.js`. -/
structure Env where
  RESEND_API_KEY : Option String := none
  STRIPE_SECRET_KEY : Option String := none
  CLICKUP_API_KEY : Option String := none
  SUPABASE_URL : Option String := none
  SUPABASE_SERVICE_KEY : Option String := none
  GHL_API_KEY : Option String := none
  GHL_LOCATION_ID : Option String := none

/-- Models `x || null`. -/
def jsOrNull (o : Option String) : Option String :=
  if jsTruthy o then o else none

/-- Models `name.trim().split(" ")`. -/
def nameParts (name : String) : List String := strSplit (jsTrim name) ' '

/-- Models `parts[0]`. -/
def firstNameOf (name : String) : String := (nameParts name).headD ""

/-- Models `parts.slice(1).join(" ") || null`. -/
def lastNameOf (name : String) : Option String :=
  let rest := jsJoin " " (nameParts name).tail
  if rest = "" then none else some rest

/-- Models `name.split(" ")[0]` (the handler-level `firstName`, untrimmed). -/
def jsFirstWord (s : String) : String := (strSplit s ' ').headD ""

/-- One row POSTed to the `customers` table. -/
structure CustomerRow where
  first_name : String
  last_name : Option String
  email : Option String
  phone : Option String
  deriving DecidableEq

/-- One request issued by `insertSupabaseRecord` to the record store.
The two date fields of the invoice row (current date) are not modelled. -/
inductive SbReq
  | customersInsert (row : CustomerRow)
  | ordersInsert (customer_name : Option String) (customer_email : Option String)
      (customer_phone : Option String) (order_type : Option String)
      (sku : Option String) (color : Option String) (value : Option ℚ)
      (location : Option String)
  | invoicesInsert (order_id : Option String) (customer_name : Option String)
      (amount : Option ℚ) (status : String)
  | inscriptionsInsert (inscription_text : String)
  deriving DecidableEq

/-- The arguments `insertSupabaseRecord` is called with. -/
structure SbArgs where
  type : String
  name : String
  email : Option String := none
  phone : Option String := none
  enquiry_type : Option String := none
  location : Option String := none
  product : Option Product := none

/-- Outcomes of the record-store calls in one run. -/
structure SbWorld where
  customersOk : Bool := true
  ordersOk : Bool := true
  orderId : Option String := none
  invoicesOk : Bool := true
  invoiceId : Option String := none
  inscriptionsOk : Bool := true

/-- Models `insertSupabaseRecord`: skipped silently when unconfigured, then
POST customers (throw on failure), POST orders (throw on failure), for a
Quote with truthy price POST invoices (failure only logged), and for a
truthy inscription POST inscriptions (throw on failure).  Returns the
thrown-or-returned value paired with the trace of issued requests. -/
def insertSupabaseRecord (env : Env) (a : SbArgs) (w : SbWorld) :
    Except Unit (Option String) × List SbReq :=
  if !(jsTruthy env.SUPABASE_URL && jsTruthy env.SUPABASE_SERVICE_KEY) then (.ok none, [])
  else
    let reqC := SbReq.customersInsert ⟨firstNameOf a.name, lastNameOf a.name, a.email, jsOrNull a.phone⟩
    if !w.customersOk then (.error (), [reqC])
    else
      let prodName := jsOrNull (a.product.bind (·.name))
      let prodColour := jsOrNull (a.product.bind (·.colour))
      let prodPrice := a.product.bind (·.price)
      let reqO := SbReq.ordersInsert (some a.name) a.email (jsOrNull a.phone)
        (if a.type = "quote" then some "quote" else jsOrNull a.enquiry_type)
        prodName prodColour
        (if jsTruthy prodPrice then jsParseFloat prodPrice else none)
        (jsOrNull a.location)
      if !w.ordersOk then (.error (), [reqC, reqO])
      else
        let invoiceSteps : Option String × List SbReq :=
          if a.type = "quote" && jsTruthy prodPrice then
            let reqI := SbReq.invoicesInsert w.orderId (some a.name) (jsParseFloat prodPrice) "pending"
            if !w.invoicesOk then (none, [reqI]) else (w.invoiceId, [reqI])
          else (none, [])
        let inscription := a.product.bind (·.inscription)
        if jsTruthy inscription then
          let reqS := SbReq.inscriptionsInsert (jsStr inscription)
          if !w.inscriptionsOk then (.error (), [reqC, reqO] ++ invoiceSteps.2 ++ [reqS])
          else (.ok (jsOrNull invoiceSteps.1), [reqC, reqO] ++ invoiceSteps.2 ++ [reqS])
        else (.ok (jsOrNull invoiceSteps.1), [reqC, reqO] ++ invoiceSteps.2)

/-- The customer rows contained in a record-store request trace. -/
def customerRowsOf (trace : List SbReq) : List CustomerRow :=
  trace.filterMap fun r =>
    match r with
    | .customersInsert row => some row
    | _ => none

/-- Plain-insert semantics of the `customers` REST endpoint: each POST in
the trace appends one new row to the table (the request carries no lookup
and no upsert/merge directive). -/
def applyCustomers (table : List CustomerRow) (trace : List SbReq) : List CustomerRow :=
  table ++ customerRowsOf trace

/-! ### Submission orchestrators (`onRequestPost`, `handleQuoteRequest`,
`handleEnquiry`) -/

/-- The provider calls an orchestration run can attempt. -/
inductive Call
  | stripeInvoice
  | businessEmail
  | customerEmail
  | clickUpTask
  | supabaseInsert
  | ghlContact
  deriving DecidableEq

/-- The JSON body of a handler response. -/
inductive RespBody
  | err (error : String)
  | okSimple
  | okQuote (invoiceId : Option String) (invoiceOnly : Bool) (stripeInvoiceUrl : Option String)
  deriving DecidableEq

/-- An HTTP response of the submission endpoint. -/
structure Resp where
  status : ℕ
  body : RespBody
  deriving DecidableEq

/-- The `stripeInvoiceUrl` field of a Quote success body, when present. -/
def respInvoiceUrl : RespBody → Option (Option String)
  | .okQuote _ _ u => some u
  | _ => none

/-- Outcomes of the external calls available to one orchestration run.
`stripeResult` is what `createStripeInvoice` would produce: a thrown error
(`.error`) or the finalised `hosted_invoice_url || null`. -/
structure World where
  stripeResult : Except Unit (Option String) := .ok none
  businessEmailOk : Bool := true
  customerEmailOk : Bool := true
  clickUpOk : Bool := true
  sbWorld : SbWorld := {}
  ghlOk : Bool := true

/-- Models `handleQuoteRequest`: optional Stripe invoice issuance first
(best-effort), then the critical business notification email (failure
returns 500 and halts), then best-effort customer email, ClickUp task,
record-store insert and CRM upsert.  Returns the response and the ordered
trace of attempted calls. -/
def handleQuoteRequest (env : Env) (data : SubmitData) (w : World) : Resp × List Call :=
  let product := data.product.getD {}
  let invoiceOnly : Bool := decide (data.payment_preference = some "invoice_only")
  let doStripe : Bool := invoiceOnly && jsTruthy env.STRIPE_SECRET_KEY
  let stripeInvoiceUrl : Option String :=
    if doStripe then
      match w.stripeResult with
      | .ok u => u
      | .error _ => none
    else none
  let t0 : List Call := if doStripe then [.stripeInvoice] else []
  if !w.businessEmailOk then
    (⟨500, .err "Failed to send notification email"⟩, t0 ++ [.businessEmail])
  else
    let sbRes := insertSupabaseRecord env
      ⟨"quote", jsStr data.name, data.email, data.phone, none, data.location, some product⟩
      w.sbWorld
    let invoiceId : Option String :=
      match sbRes.1 with
      | .ok v => jsOrNull v
      | .error _ => none
    (⟨200, .okQuote invoiceId invoiceOnly stripeInvoiceUrl⟩,
     t0 ++ [.businessEmail, .customerEmail, .clickUpTask, .supabaseInsert, .ghlContact])

/-- The argument record with which `handleQuoteRequest` renders the
customer confirmation email (same `stripeInvoiceUrl` as the response). -/
def quoteCustomerArgsOf (data : SubmitData) (stripeInvoiceUrl : Option String) :
    QuoteCustomerArgs :=
  let product := data.product.getD {}
  { firstName := some (jsFirstWord (jsStr data.name)),
    product := product,
    stoneHex := stoneHexOf product.colour,
    invoiceOnly := decide (data.payment_preference = some "invoice_only"),
    stripeInvoiceUrl := stripeInvoiceUrl }

/-- Models `handleEnquiry`: requires a truthy `message`, then the critical
business email, then the best-effort fan-out. -/
def handleEnquiry (env : Env) (data : SubmitData) (w : World) : Resp × List Call :=
  if !jsTruthy data.message then (⟨400, .err "Missing required fields"⟩, [])
  else if !w.businessEmailOk then
    (⟨500, .err "Failed to send notification email"⟩, [.businessEmail])
  else
    let _sb := insertSupabaseRecord env
      ⟨"enquiry", jsStr data.name, data.email, data.phone, data.enquiry_type, data.location, none⟩
      w.sbWorld
    (⟨200, .okSimple⟩, [.businessEmail, .customerEmail, .clickUpTask, .supabaseInsert, .ghlContact])

/-- Models `onRequestPost`: mandatory email credential checked before the
body is read, then JSON parsing (`none` = malformed body), then `name` and
`email` validation, then dispatch on `type === "quote"`. -/
def onRequestPost (env : Env) (body : Option SubmitData) (w : World) : Resp × List Call :=
  if !jsTruthy env.RESEND_API_KEY then (⟨500, .err "Server configuration error"⟩, [])
  else
    match body with
    | none => (⟨400, .err "Invalid JSON"⟩, [])
    | some data =>
        if !(jsTruthy data.name && jsTruthy data.email) then
          (⟨400, .err "Missing required fields"⟩, [])
        else if data.type = some "quote" then handleQuoteRequest env data w
        else handleEnquiry env data w

/-! ### Payment-confirmation webhook (`src/unnamed/part_004`,
`POST /stripe-webhook` branch and `verifyStripeWebhookSig`) -/

/-- The environment bindings read by the webhook branch. -/
structure WebhookEnv where
  STRIPE_WEBHOOK_SECRET : Option String := none
  RESEND_API_KEY : Option String := none
  SUPABASE_URL : Option String := none
  SUPABASE_SERVICE_KEY : Option String := none

/-- Models `verifyStripeWebhookSig`: split the signature header on commas,
take the `t=`/`v1=` parts, reject a timestamp that parses and is more than
300 seconds from `nowSec`, then compare the supplied signature with
`hmacHex secret (timestamp ++ "." ++ rawBody)`.  `hmacHex` abstracts
HMAC-SHA256 with lowercase hex output (`crypto.subtle`). -/
def verifyStripeWebhookSig (hmacHex : String → String → String) (nowSec : ℤ)
    (rawBody sigHeader secret : String) : Bool :=
  if sigHeader = "" || secret = "" then false
  else
    let parts := strSplit sigHeader ','
    match parts.find? (fun p => strLeads p "t="), parts.find? (fun p => strLeads p "v1=") with
    | some tPart, some v1Part =>
        let timestamp := strSlice tPart 2
        let givenSig := strSlice v1Part 3
        if (match jsParseInt timestamp with
            | some t => decide (300 < (nowSec - t).natAbs)
            | none => false) then false
        else decide (hmacHex secret (timestamp ++ "." ++ rawBody) = givenSig)
    | _, _ => false

/-- The `data.object` of a parsed Stripe event (`pi`), with its metadata. -/
structure StripeEventObj where
  id : String := ""
  customer_name : Option String := none
  customer_email : Option String := none
  cemetery : Option String := none
  product : Option String := none
  amount_received : ℤ := 0

/-- A parsed Stripe webhook event. -/
structure StripeEvent where
  type : String
  obj : StripeEventObj := {}

/-- Models `(n / 100).toFixed(2)` for an integer minor-unit amount. -/
def toFixed2 (n : ℤ) : String :=
  (if n < 0 then "-" else "") ++ toString (n.natAbs / 100) ++ "." ++
    (let r := n.natAbs % 100
     (if r < 10 then "0" else "") ++ toString r)

/-- A side effect of the webhook branch. -/
inductive WhEffect
  | orderUpdate (customer_email : String) (stripe_pi_id : String) (deposit_amount : Option ℚ)
  | depositCustomerEmail (recipient : String)
  | depositBusinessEmail (recipient : String)
  deriving DecidableEq

/-- The JSON body of a webhook response. -/
inductive WhBody
  | errSignature
  | errJson
  | received
  deriving DecidableEq

/-- An HTTP response of the webhook endpoint. -/
structure WhResp where
  status : ℕ
  body : WhBody
  deriving DecidableEq

/-- Outcomes of the webhook side effects in one delivery. -/
structure WhWorld where
  orderUpdateOk : Bool := true
  depositCustomerEmailOk : Bool := true

/-- Models the `POST /stripe-webhook` branch: when a verification secret is
configured the signature is verified first (reject with 400 and no side
effects on failure); then the raw body is parsed (`parseJson` abstracts
`JSON.parse`; `none` = malformed, 400); a `payment_intent.succeeded` event
triggers a best-effort order update keyed on the customer email and a
best-effort deposit-confirmation email pair (the business email is only
attempted when the customer email send succeeded); every other parsed event
is acknowledged with no side effects.  Always `200 {received:true}` past
the two reject gates. -/
def stripeWebhook (hmacHex : String → String → String) (nowSec : ℤ) (env : WebhookEnv)
    (rawBody : String) (sigHeader : String) (parseJson : String → Option StripeEvent)
    (w : WhWorld) : WhResp × List WhEffect :=
  let whSecret := jsStr env.STRIPE_WEBHOOK_SECRET
  if whSecret ≠ "" && !verifyStripeWebhookSig hmacHex nowSec rawBody sigHeader whSecret then
    (⟨400, .errSignature⟩, [])
  else
    match parseJson rawBody with
    | none => (⟨400, .errJson⟩, [])
    | some event =>
        if event.type = "payment_intent.succeeded" then
          let pi := event.obj
          let amountPaid := toFixed2 pi.amount_received
          let eff1 : List WhEffect :=
            if jsTruthy env.SUPABASE_URL && jsTruthy env.SUPABASE_SERVICE_KEY &&
                jsTruthy pi.customer_email then
              [.orderUpdate (jsStr pi.customer_email) pi.id (jsParseFloat (some amountPaid))]
            else []
          let eff2 : List WhEffect :=
            if jsTruthy env.RESEND_API_KEY && jsTruthy pi.customer_email then
              .depositCustomerEmail (jsStr pi.customer_email) ::
                (if w.depositCustomerEmailOk then [.depositBusinessEmail BUSINESS_EMAIL] else [])
            else []
          (⟨200, .received⟩, eff1 ++ eff2)
        else (⟨200, .received⟩, [])


/-! ## Theorems -/

/-! ### String-containment helper lemmas -/

theorem containsStr_refl (t : String) : ContainsStr t t :=
  ⟨"", "", by rw [String.append_empty]; rfl⟩

theorem containsStr_appendL {s t : String} (r : String) (h : ContainsStr s t) :
    ContainsStr (r ++ s) t := by
  obtain ⟨p, q, hp⟩ := h
  exact ⟨r ++ p, q, by rw [hp, String.append_assoc]⟩

theorem containsStr_appendR {s t : String} (r : String) (h : ContainsStr s t) :
    ContainsStr (s ++ r) t := by
  obtain ⟨p, q, hp⟩ := h
  exact ⟨p, q ++ r, by rw [hp, String.append_assoc, String.append_assoc]⟩

theorem containsStr_trans {s t u : String} (h1 : ContainsStr s t) (h2 : ContainsStr t u) :
    ContainsStr s u := by
  obtain ⟨p1, q1, hp1⟩ := h1
  obtain ⟨p2, q2, hp2⟩ := h2
  refine ⟨p1 ++ p2, q2 ++ q1, ?_⟩
  rw [hp1, hp2]
  simp only [String.append_assoc]

theorem sconcat_append (l1 l2 : List String) :
    sconcat (l1 ++ l2) = sconcat l1 ++ sconcat l2 := by
  induction l1 with
  | nil => rfl
  | cons s rest ih =>
      show s ++ sconcat (rest ++ l2) = (s ++ sconcat rest) ++ sconcat l2
      rw [ih, String.append_assoc]

theorem containsStr_sconcat_of_mem {x : String} {l : List String} (h : x ∈ l) :
    ContainsStr (sconcat l) x := by
  induction l with
  | nil => cases h
  | cons s rest ih =>
      rcases List.mem_cons.mp h with h' | h'
      · subst h'
        exact ⟨"", sconcat rest, rfl⟩
      · exact containsStr_appendL s (ih h')

theorem containsStr_sconcat_mem_trans {x t : String} {l : List String}
    (h : x ∈ l) (h2 : ContainsStr x t) : ContainsStr (sconcat l) t :=
  containsStr_trans (containsStr_sconcat_of_mem h) h2

theorem containsStr_adj3 (l1 l2 : List String) (a b c : String) :
    ContainsStr (sconcat (l1 ++ a :: b :: c :: l2)) (a ++ (b ++ c)) := by
  refine ⟨sconcat l1, sconcat l2, ?_⟩
  rw [sconcat_append]
  show sconcat l1 ++ (a ++ (b ++ (c ++ sconcat l2))) =
    sconcat l1 ++ ((a ++ (b ++ c)) ++ sconcat l2)
  simp only [String.append_assoc]



/-! ### Generic evaluation lemmas for the money model -/

theorem foldl_add_map {α : Type} (f : α → ℚ) (l : List α) (i : ℚ) :
    l.foldl (fun s a => s + f a) i = i + (l.map f).sum := by
  induction l generalizing i with
  | nil => simp
  | cons x xs ih => simp [ih, add_assoc]

theorem addonTotal_eq_sum (p : Product) :
    addonTotal p = ((addonItemsOf p).map (fun a => orZero (jsParseFloat a.price))).sum := by
  unfold addonTotal
  rw [foldl_add_map]
  simp

/-! ### C2 — money breakdown -/

/-- C2 (amended): for every product configuration,
`baseAmount = max(0, grandTotal - addonTotal)`, where `grandTotal` is the
parsed `product.price` (0 if unparseable or absent; it can be negative when
the price string parses to a negative number) and `addonTotal` is the sum
of the parseable add-on prices (unparseable/absent contribute 0); for
`product.price = "1000"` with one add-on `{name: "Engraving", price: "150"}`,
`baseAmount = 850`, `addonTotal = 150`, `grandTotal = 1000`. -/
theorem claim_c2_money_breakdown :
    (∀ p : Product, basePrice p = max 0 (totalPrice p - addonTotal p)) ∧
    (∀ p : Product, totalPrice p = orZero (jsParseFloat p.price)) ∧
    (∀ p : Product,
      addonTotal p = ((addonItemsOf p).map (fun a => orZero (jsParseFloat a.price))).sum) ∧
    (totalPrice { price := some "1000", addonLineItems := some [⟨some "Engraving", some "150"⟩] } = 1000 ∧
     addonTotal { price := some "1000", addonLineItems := some [⟨some "Engraving", some "150"⟩] } = 150 ∧
     basePrice { price := some "1000", addonLineItems := some [⟨some "Engraving", some "150"⟩] } = 850) := by
  refine ⟨fun p => rfl, fun p => rfl, addonTotal_eq_sum, ?_, ?_, ?_⟩ <;>
    simp [totalPrice, addonTotal, basePrice, addonItemsOf, addonsFallback, jsParseFloat,
      parseFloatChars, readSign, readDigits, readExpo, isWsChar, orZero]
  norm_num

/-- C2 (counterexample): the claim states the grand total is "never
negative", but `parseFloat("-5") || 0` is `-5`: a product whose price
string is `"-5"` has a negative grand total. -/
theorem claim_c2_counterexample :
    totalPrice { price := some "-5" } < 0 := by
  simp [totalPrice, jsParseFloat, parseFloatChars, readSign, readDigits, readExpo, isWsChar,
    orZero]


/-! ### C3 — invoice line-item sum -/

theorem foldl_optAdd_none (l : List AddonItem) :
    l.foldl (fun s a => optAddZ s (addonPence a)) none = none := by
  induction l with
  | nil => rfl
  | cons x xs ih => simpa [optAddZ] using ih

theorem foldl_optAdd_some {l : List AddonItem} {i A : ℤ}
    (h : l.foldl (fun s a => optAddZ s (addonPence a)) (some i) = some A) :
    (∀ a ∈ l, ∃ n, addonPence a = some n) ∧
      A = i + (l.map (fun a => (addonPence a).getD 0)).sum := by
  induction l generalizing i with
  | nil =>
      simp only [List.foldl_nil, Option.some.injEq] at h
      simp [h]
  | cons x xs ih =>
      rw [List.foldl_cons] at h
      cases hx : addonPence x with
      | none =>
          rw [hx] at h
          rw [show optAddZ (some i) none = none from rfl] at h
          rw [foldl_optAdd_none] at h
          cases h
      | some n =>
          rw [hx] at h
          rw [show optAddZ (some i) (some n) = some (i + n) from rfl] at h
          obtain ⟨hall, hsum⟩ := ih h
          refine ⟨?_, ?_⟩
          · intro a ha
            rcases List.mem_cons.mp ha with h' | h'
            · exact ⟨n, h' ▸ hx⟩
            · exact hall a h'
          · simp only [List.map_cons, List.sum_cons, hx, Option.getD_some]
            omega

theorem orZero_of_pfOrZero {o : Option String} {q : ℚ} (h : pfOrZeroJs o = some q) :
    orZero (jsParseFloat o) = q := by
  cases o with
  | none =>
      simp only [pfOrZeroJs, Option.some.injEq] at h
      simp [jsParseFloat, orZero, ← h]
  | some s =>
      by_cases hs : s = ""
      · subst hs
        have h' : (0 : ℚ) = q := by simpa [pfOrZeroJs] using h
        simp [jsParseFloat, parseFloatChars, readSign, readDigits, readExpo, isWsChar, orZero, ← h']
      · simp only [pfOrZeroJs, if_neg hs] at h
        simp [jsParseFloat, orZero, h]

theorem totalPricePence_eq {p : Product} {T : ℤ} (hT : totalPricePence p = some T) :
    T = jsRound (totalPrice p * 100) := by
  unfold totalPricePence mulRound100 at hT
  cases hpf : pfOrZeroJs p.price with
  | none => rw [hpf] at hT; cases hT
  | some q =>
      rw [hpf] at hT
      simp only [Option.some.injEq] at hT
      have := orZero_of_pfOrZero hpf
      unfold totalPrice
      rw [this, ← hT]

theorem filterMap_pos_sum {l : List AddonItem}
    (hall : ∀ a ∈ l, ∃ n, addonPence a = some n)
    (hpos : ∀ a ∈ l, 0 ≤ (addonPence a).getD 0) :
    (l.filterMap fun a =>
        match addonPence a with
        | some n => if 0 < n then some n else none
        | none => none).sum
      = (l.map (fun a => (addonPence a).getD 0)).sum := by
  induction l with
  | nil => rfl
  | cons x xs ih =>
      obtain ⟨n, hn⟩ := hall x (by simp)
      have hpx : (0:ℤ) ≤ n := by simpa [hn] using hpos x (by simp)
      have ihx := ih (fun a ha => hall a (List.mem_cons_of_mem _ ha))
        (fun a ha => hpos a (List.mem_cons_of_mem _ ha))
      rw [List.filterMap_cons, List.map_cons]
      by_cases h0 : 0 < n
      · simp [hn, h0, List.sum_cons, ihx]
      · have hz : n = 0 := le_antisymm (not_lt.mp h0) hpx
        simp [hn, h0, hz, ihx]

theorem zeroLines_sum (p : Product) :
    (if (stripeAddonItems p).isEmpty then
        (match p.addons with
         | some l => if l.isEmpty then [] else l.map (fun _ => (0 : ℤ))
         | none => [])
      else []).sum = 0 := by
  split
  · split
    · split <;> simp
    · simp
  · simp

/-- C3 (amended): for every Quote whose invoice is issued *and* whose
add-on minor-unit amounts are non-negative with sum not exceeding the
rounded grand total, the sum of the created invoice line-item amounts in
minor units equals `round(grandTotal × 100)` exactly (the subtraction that
derives the base line makes the total exact; no drift remains).  When the
rounded add-on total exceeds the rounded grand total the base line is
clamped at 0 and the equality fails (see the counterexample). -/
theorem claim_c3_invoice_line_item_sum (p : Product) (T A : ℤ) (L : List ℤ)
    (hT : totalPricePence p = some T)
    (hA : addonTotalPence p = some A)
    (hpos : ∀ a ∈ stripeAddonItems p, 0 ≤ (addonPence a).getD 0)
    (hle : A ≤ T)
    (hL : stripeLineAmounts p = some L) :
    L.sum = jsRound (totalPrice p * 100) := by
  have hbase : basePricePence p = some (max 0 (T - A)) := by
    unfold basePricePence
    rw [hT, hA]
  unfold stripeLineAmounts at hL
  rw [hbase] at hL
  simp only [Option.some.injEq] at hL
  obtain ⟨hall, hsum⟩ := foldl_optAdd_some (by simpa [addonTotalPence] using hA)
  subst hL
  simp only [List.sum_cons, List.sum_append]
  rw [filterMap_pos_sum hall hpos, zeroLines_sum]
  have hmax : max 0 (T - A) = T - A := max_eq_right (sub_nonneg.mpr hle)
  rw [hmax, ← totalPricePence_eq hT]
  omega

/-- Concrete product used to witness C3. -/
def stripeExampleProduct : Product :=
  { price := some "1000", addonLineItems := some [⟨some "Engraving", some "150"⟩] }

/-- C3 (witness): for price "1000" and one add-on priced "150" the issued
line items are 85000 and 15000 pence, summing to `round(1000 × 100)`. -/
theorem claim_c3_invoice_line_item_sum_witness :
    ([(85000 : ℤ), 15000].sum = jsRound (totalPrice stripeExampleProduct * 100)) := by
  have h1 : totalPricePence stripeExampleProduct = some 100000 := by
    simp [stripeExampleProduct, totalPricePence, pfOrZeroJs, parseFloatChars, readSign,
      readDigits, readExpo, isWsChar, mulRound100, jsRound]
    norm_num
  have h2 : addonTotalPence stripeExampleProduct = some 15000 := by
    simp [stripeExampleProduct, addonTotalPence, stripeAddonItems, addonPence, pfOrZeroJs,
      parseFloatChars, readSign, readDigits, readExpo, isWsChar, mulRound100, jsRound, optAddZ]
    norm_num
  have ha : addonPence ⟨some "Engraving", some "150"⟩ = some 15000 := by
    simp [addonPence, pfOrZeroJs, parseFloatChars, readSign, readDigits, readExpo, isWsChar,
      mulRound100, jsRound]
    norm_num
  have h3 : stripeLineAmounts stripeExampleProduct = some [85000, 15000] := by
    unfold stripeLineAmounts
    have hb : basePricePence stripeExampleProduct = some 85000 := by
      unfold basePricePence
      rw [h1, h2]
      norm_num
    rw [hb]
    simp [stripeExampleProduct, stripeAddonItems, ha]
  have h4 : ∀ a ∈ stripeAddonItems stripeExampleProduct, 0 ≤ (addonPence a).getD 0 := by
    intro a hma
    simp [stripeExampleProduct, stripeAddonItems] at hma
    subst hma
    simp [ha]
  exact claim_c3_invoice_line_item_sum stripeExampleProduct 100000 15000 [85000, 15000]
    h1 h2 h4 (by norm_num) h3

/-- Concrete product refuting C3 as stated: one add-on priced above the
grand total. -/
def stripeClampProduct : Product :=
  { price := some "100", addonLineItems := some [⟨some "Engraving", some "150"⟩] }

/-- C3 (counterexample): with price "100" and an add-on priced "150" the
invoice is issued with line items 0 and 15000 pence, whose sum 15000
differs from `round(grandTotal × 100) = 10000` by far more than one minor
unit. -/
theorem claim_c3_counterexample :
    stripeLineAmounts stripeClampProduct = some [0, 15000] ∧
      ¬ ([(0 : ℤ), 15000].sum = jsRound (totalPrice stripeClampProduct * 100)) := by
  have h1 : totalPricePence stripeClampProduct = some 10000 := by
    simp [stripeClampProduct, totalPricePence, pfOrZeroJs, parseFloatChars, readSign,
      readDigits, readExpo, isWsChar, mulRound100, jsRound]
    norm_num
  have h2 : addonTotalPence stripeClampProduct = some 15000 := by
    simp [stripeClampProduct, addonTotalPence, stripeAddonItems, addonPence, pfOrZeroJs,
      parseFloatChars, readSign, readDigits, readExpo, isWsChar, mulRound100, jsRound, optAddZ]
    norm_num
  have ha : addonPence ⟨some "Engraving", some "150"⟩ = some 15000 := by
    simp [addonPence, pfOrZeroJs, parseFloatChars, readSign, readDigits, readExpo, isWsChar,
      mulRound100, jsRound]
    norm_num
  constructor
  · unfold stripeLineAmounts
    have hb : basePricePence stripeClampProduct = some 0 := by
      unfold basePricePence
      rw [h1, h2]
      norm_num
    rw [hb]
    simp [stripeClampProduct, stripeAddonItems, ha]
  · rw [← totalPricePence_eq h1]
    norm_num


/-! ### C4 — validation and configuration errors precede all adapter calls -/

/-- C4: the submission endpoint returns 500 "Server configuration error"
when the mandatory email credential is absent, regardless of the body
(checked before parsing); 400 "Invalid JSON" for a malformed body; 400
"Missing required fields" when `name` or `email` is falsy, or when an
Enquiry has a falsy `message`; in every such case the call trace is empty
(no adapter is invoked). -/
theorem claim_c4_validation_errors :
    (∀ (env : Env) (body : Option SubmitData) (w : World),
      jsTruthy env.RESEND_API_KEY = false →
        onRequestPost env body w = (⟨500, .err "Server configuration error"⟩, [])) ∧
    (∀ (env : Env) (w : World), jsTruthy env.RESEND_API_KEY = true →
        onRequestPost env none w = (⟨400, .err "Invalid JSON"⟩, [])) ∧
    (∀ (env : Env) (data : SubmitData) (w : World), jsTruthy env.RESEND_API_KEY = true →
      (jsTruthy data.name = false ∨ jsTruthy data.email = false) →
        onRequestPost env (some data) w = (⟨400, .err "Missing required fields"⟩, [])) ∧
    (∀ (env : Env) (data : SubmitData) (w : World), jsTruthy env.RESEND_API_KEY = true →
      jsTruthy data.name = true → jsTruthy data.email = true → data.type ≠ some "quote" →
      jsTruthy data.message = false →
        onRequestPost env (some data) w = (⟨400, .err "Missing required fields"⟩, [])) := by
  refine ⟨?_, ?_, ?_, ?_⟩
  · intro env body w h
    simp [onRequestPost, h]
  · intro env w h
    simp [onRequestPost, h]
  · intro env data w h hne
    rcases hne with h1 | h1 <;> simp [onRequestPost, h, h1]
  · intro env data w h hn he ht hm
    simp [onRequestPost, h, hn, he, ht, handleEnquiry, hm]

/-- C4 (witness): the four error responses at concrete inputs. -/
theorem claim_c4_validation_errors_witness :
    (onRequestPost {} none {} = (⟨500, .err "Server configuration error"⟩, [])) ∧
    (onRequestPost { RESEND_API_KEY := some "rk" } none {} = (⟨400, .err "Invalid JSON"⟩, [])) ∧
    (onRequestPost { RESEND_API_KEY := some "rk" }
      (some { email := some "jane@example.com" }) {} =
        (⟨400, .err "Missing required fields"⟩, [])) ∧
    (onRequestPost { RESEND_API_KEY := some "rk" }
      (some { name := some "Jane Doe", email := some "jane@example.com" }) {} =
        (⟨400, .err "Missing required fields"⟩, [])) :=
  ⟨claim_c4_validation_errors.1 {} none {} (by decide),
   claim_c4_validation_errors.2.1 { RESEND_API_KEY := some "rk" } {} (by decide),
   claim_c4_validation_errors.2.2.1 { RESEND_API_KEY := some "rk" }
     { email := some "jane@example.com" } {} (by decide) (Or.inl (by decide)),
   claim_c4_validation_errors.2.2.2 { RESEND_API_KEY := some "rk" }
     { name := some "Jane Doe", email := some "jane@example.com" } {} (by decide) (by decide)
     (by decide) (by decide) (by decide)⟩

/-! ### C1 — a business-notification failure halts the orchestration -/

/-- C1: for every submission that passes validation (Quote, or Enquiry
with a truthy message), if the business-notification email send fails the
endpoint responds 500 with error "Failed to send notification email" and
the call trace contains no task-creation, record-store or CRM call. -/
theorem claim_c1_critical_email_halt (env : Env) (data : SubmitData) (w : World)
    (hkey : jsTruthy env.RESEND_API_KEY = true)
    (hname : jsTruthy data.name = true)
    (hemail : jsTruthy data.email = true)
    (hvalid : data.type = some "quote" ∨ jsTruthy data.message = true)
    (hfail : w.businessEmailOk = false) :
    (onRequestPost env (some data) w).1 = ⟨500, .err "Failed to send notification email"⟩ ∧
    Call.clickUpTask ∉ (onRequestPost env (some data) w).2 ∧
    Call.supabaseInsert ∉ (onRequestPost env (some data) w).2 ∧
    Call.ghlContact ∉ (onRequestPost env (some data) w).2 := by
  by_cases ht : data.type = some "quote"
  · simp only [onRequestPost, hkey, hname, hemail, ht]
    simp [handleQuoteRequest, hfail]
  · have hmsg : jsTruthy data.message = true := by
      rcases hvalid with h | h
      · exact absurd h ht
      · exact h
    simp only [onRequestPost, hkey, hname, hemail]
    simp [ht, handleEnquiry, hmsg, hfail]

/-- C1 (witness): a concrete Quote submission whose business email fails. -/
theorem claim_c1_critical_email_halt_witness :
    (onRequestPost { RESEND_API_KEY := some "rk" }
        (some { type := some "quote", name := some "Jane Doe", email := some "jane@example.com" })
        { businessEmailOk := false }).1 =
      ⟨500, .err "Failed to send notification email"⟩ ∧
    Call.clickUpTask ∉ (onRequestPost { RESEND_API_KEY := some "rk" }
        (some { type := some "quote", name := some "Jane Doe", email := some "jane@example.com" })
        { businessEmailOk := false }).2 ∧
    Call.supabaseInsert ∉ (onRequestPost { RESEND_API_KEY := some "rk" }
        (some { type := some "quote", name := some "Jane Doe", email := some "jane@example.com" })
        { businessEmailOk := false }).2 ∧
    Call.ghlContact ∉ (onRequestPost { RESEND_API_KEY := some "rk" }
        (some { type := some "quote", name := some "Jane Doe", email := some "jane@example.com" })
        { businessEmailOk := false }).2 :=
  claim_c1_critical_email_halt _ _ _ (by decide) (by decide) (by decide)
    (Or.inl (by decide)) (by decide)


/-! ### C5 — webhook signature verification -/

theorem verifyStripeWebhookSig_sound (hmacHex : String → String → String) (nowSec : ℤ)
    (rawBody sigHeader secret : String)
    (h : verifyStripeWebhookSig hmacHex nowSec rawBody sigHeader secret = true) :
    ∃ tPart v1Part,
      (strSplit sigHeader ',').find? (fun p => strLeads p "t=") = some tPart ∧
      (strSplit sigHeader ',').find? (fun p => strLeads p "v1=") = some v1Part ∧
      hmacHex secret (strSlice tPart 2 ++ "." ++ rawBody) = strSlice v1Part 3 ∧
      (∀ t : ℤ, jsParseInt (strSlice tPart 2) = some t → (nowSec - t).natAbs ≤ 300) := by
  unfold verifyStripeWebhookSig at h
  simp only [] at h
  split at h
  · cases h
  · cases hfT : (strSplit sigHeader ',').find? (fun p => strLeads p "t=") with
    | none => rw [hfT] at h; simp at h
    | some tPart =>
        cases hfV : (strSplit sigHeader ',').find? (fun p => strLeads p "v1=") with
        | none => rw [hfT, hfV] at h; simp at h
        | some v1Part =>
            rw [hfT, hfV] at h
            simp only at h
            split at h
            · cases h
            · rename_i hstale
              refine ⟨tPart, v1Part, rfl, rfl, of_decide_eq_true h, ?_⟩
              intro t hparse
              by_contra hgt
              rw [hparse] at hstale
              simp at hstale
              omega

/-- C5 (amended): with a verification secret configured, a request whose
signature fails verification is rejected with 400 and no side effects; a
verified request has a supplied signature equal to the recomputed
`hmacHex secret (timestamp ++ "." ++ rawBody)` and a timestamp that, when it
parses, is within 300 seconds of current time; with no secret configured
the signature check is skipped (the signature header is ignored) and the
request is accepted with 200 whenever its body parses as JSON (a malformed
body still yields 400 "Invalid JSON", see the counterexample). -/
theorem claim_c5_webhook_verification :
    (∀ (hmacHex : String → String → String) (nowSec : ℤ) (env : WebhookEnv)
        (rawBody sigHeader : String) (parseJson : String → Option StripeEvent) (w : WhWorld),
      jsStr env.STRIPE_WEBHOOK_SECRET ≠ "" →
      verifyStripeWebhookSig hmacHex nowSec rawBody sigHeader
        (jsStr env.STRIPE_WEBHOOK_SECRET) = false →
      stripeWebhook hmacHex nowSec env rawBody sigHeader parseJson w =
        (⟨400, .errSignature⟩, [])) ∧
    (∀ (hmacHex : String → String → String) (nowSec : ℤ) (rawBody sigHeader secret : String),
      verifyStripeWebhookSig hmacHex nowSec rawBody sigHeader secret = true →
      ∃ tPart v1Part,
        (strSplit sigHeader ',').find? (fun p => strLeads p "t=") = some tPart ∧
        (strSplit sigHeader ',').find? (fun p => strLeads p "v1=") = some v1Part ∧
        hmacHex secret (strSlice tPart 2 ++ "." ++ rawBody) = strSlice v1Part 3 ∧
        (∀ t : ℤ, jsParseInt (strSlice tPart 2) = some t → (nowSec - t).natAbs ≤ 300)) ∧
    (∀ (hmacHex : String → String → String) (nowSec : ℤ) (env : WebhookEnv)
        (rawBody : String) (parseJson : String → Option StripeEvent) (w : WhWorld),
      jsStr env.STRIPE_WEBHOOK_SECRET = "" → ∀ h1 h2 : String,
      stripeWebhook hmacHex nowSec env rawBody h1 parseJson w =
        stripeWebhook hmacHex nowSec env rawBody h2 parseJson w) ∧
    (∀ (hmacHex : String → String → String) (nowSec : ℤ) (env : WebhookEnv)
        (rawBody sigHeader : String) (parseJson : String → Option StripeEvent) (w : WhWorld)
        (ev : StripeEvent),
      jsStr env.STRIPE_WEBHOOK_SECRET = "" → parseJson rawBody = some ev →
      (stripeWebhook hmacHex nowSec env rawBody sigHeader parseJson w).1 = ⟨200, .received⟩) := by
  refine ⟨?_, verifyStripeWebhookSig_sound, ?_, ?_⟩
  · intro hmacHex nowSec env rawBody sigHeader parseJson w hsec hbad
    unfold stripeWebhook
    simp [hsec, hbad]
  · intro hmacHex nowSec env rawBody parseJson w hsec h1 h2
    unfold stripeWebhook
    simp [hsec]
  · intro hmacHex nowSec env rawBody sigHeader parseJson w ev hsec hparse
    unfold stripeWebhook
    simp only [hsec]
    simp [hparse]
    split <;> simp

/-- C5 (witness): the four behaviours at concrete inputs, with
`hmacHex k m = k ++ "." ++ m` standing in for HMAC-SHA256. -/
theorem claim_c5_webhook_verification_witness :
    (stripeWebhook (fun k m => k ++ "." ++ m) 200 { STRIPE_WEBHOOK_SECRET := some "whsec" }
        "payload" "t=100,v1=deadbeef" (fun _ => none) {} = (⟨400, .errSignature⟩, [])) ∧
    (∃ tPart v1Part,
      (strSplit "t=100,v1=whsec.100.payload" ',').find? (fun p => strLeads p "t=") = some tPart ∧
      (strSplit "t=100,v1=whsec.100.payload" ',').find? (fun p => strLeads p "v1=") = some v1Part ∧
      (fun k m => k ++ "." ++ m) "whsec" (strSlice tPart 2 ++ "." ++ "payload") = strSlice v1Part 3 ∧
      (∀ t : ℤ, jsParseInt (strSlice tPart 2) = some t → ((200 : ℤ) - t).natAbs ≤ 300)) ∧
    (stripeWebhook (fun k m => k ++ "." ++ m) 200 {} "payload" "headerA" (fun _ => none) {} =
      stripeWebhook (fun k m => k ++ "." ++ m) 200 {} "payload" "headerB" (fun _ => none) {}) ∧
    ((stripeWebhook (fun k m => k ++ "." ++ m) 200 {} "payload" ""
        (fun _ => some { type := "payment_intent.created" }) {}).1 = ⟨200, .received⟩) :=
  ⟨claim_c5_webhook_verification.1 (fun k m => k ++ "." ++ m) 200
      { STRIPE_WEBHOOK_SECRET := some "whsec" }
      "payload" "t=100,v1=deadbeef" (fun _ => none) {} (by decide) (by decide),
   claim_c5_webhook_verification.2.1 (fun k m => k ++ "." ++ m) 200 "payload"
      "t=100,v1=whsec.100.payload" "whsec" (by decide),
   claim_c5_webhook_verification.2.2.1 (fun k m => k ++ "." ++ m) 200 {} "payload"
      (fun _ => none) {} (by decide) "headerA" "headerB",
   claim_c5_webhook_verification.2.2.2 (fun k m => k ++ "." ++ m) 200 {} "payload" ""
      (fun _ => some { type := "payment_intent.created" }) {} _ (by decide) rfl⟩

/-- C5 (counterexample): with no verification secret configured the claim
says the request is "accepted unconditionally", but a request whose body is
not valid JSON is answered 400 "Invalid JSON", not accepted. -/
theorem claim_c5_counterexample :
    stripeWebhook (fun k m => k ++ "." ++ m) 0 {} "not json" "" (fun _ => none) {} =
      (⟨400, .errJson⟩, []) ∧
    (⟨400, WhBody.errJson⟩ : WhResp).status ≠ 200 := by
  constructor
  · unfold stripeWebhook
    simp [jsStr]
  · decide

/-! ### C10 — non-success events are acknowledged with no side effects -/

/-- C10: a webhook delivery that passes signature verification (or arrives
with no secret configured) and whose parsed event type is not
"payment_intent.succeeded" produces no order update and no emails and is
answered 200 `{received: true}`. -/
theorem claim_c10_other_events_noop (hmacHex : String → String → String) (nowSec : ℤ)
    (env : WebhookEnv) (rawBody sigHeader : String)
    (parseJson : String → Option StripeEvent) (w : WhWorld) (ev : StripeEvent)
    (hpass : jsStr env.STRIPE_WEBHOOK_SECRET = "" ∨
      verifyStripeWebhookSig hmacHex nowSec rawBody sigHeader
        (jsStr env.STRIPE_WEBHOOK_SECRET) = true)
    (hparse : parseJson rawBody = some ev)
    (htype : ev.type ≠ "payment_intent.succeeded") :
    stripeWebhook hmacHex nowSec env rawBody sigHeader parseJson w = (⟨200, .received⟩, []) := by
  unfold stripeWebhook
  rcases hpass with h | h
  · simp [h, hparse, htype]
  · simp [h, hparse, htype]

/-- C10 (witness): a concrete `payment_intent.created` delivery with no
secret configured is acknowledged with no effects. -/
theorem claim_c10_other_events_noop_witness :
    stripeWebhook (fun k m => k ++ "." ++ m) 0 {} "payload" ""
      (fun _ => some { type := "payment_intent.created" }) {} = (⟨200, .received⟩, []) :=
  claim_c10_other_events_noop _ 0 {} "payload" ""
    (fun _ => some { type := "payment_intent.created" }) {} _
    (Or.inl (by decide)) rfl (by decide)


/-! ### C9 — the record-store customer write is a plain insert -/

theorem customerRowsOf_single (env : Env) (a : SbArgs) (w : SbWorld)
    (hcfg : (jsTruthy env.SUPABASE_URL && jsTruthy env.SUPABASE_SERVICE_KEY) = true) :
    customerRowsOf (insertSupabaseRecord env a w).2 =
      [⟨firstNameOf a.name, lastNameOf a.name, a.email, jsOrNull a.phone⟩] := by
  unfold insertSupabaseRecord
  simp only [hcfg]
  repeat' split
  all_goals simp_all [customerRowsOf, List.filterMap_append]

/-- C9 (amended): the record-store write performs no lookup and sends no
upsert directive: whenever the record store is configured, one run of
`insertSupabaseRecord` POSTs exactly one new `customers` row built from the
submission alone (independent of any existing rows), so handling two
submissions carrying the same email appends two customer rows to the
table, not one. -/
theorem claim_c9_customer_insert_not_upsert :
    (∀ (env : Env) (a : SbArgs) (w : SbWorld),
      (jsTruthy env.SUPABASE_URL && jsTruthy env.SUPABASE_SERVICE_KEY) = true →
      customerRowsOf (insertSupabaseRecord env a w).2 =
        [⟨firstNameOf a.name, lastNameOf a.name, a.email, jsOrNull a.phone⟩]) ∧
    (∀ (table : List CustomerRow) (env : Env) (a : SbArgs) (w1 w2 : SbWorld),
      (jsTruthy env.SUPABASE_URL && jsTruthy env.SUPABASE_SERVICE_KEY) = true →
      applyCustomers (applyCustomers table (insertSupabaseRecord env a w1).2)
          (insertSupabaseRecord env a w2).2 =
        table ++ [⟨firstNameOf a.name, lastNameOf a.name, a.email, jsOrNull a.phone⟩,
          ⟨firstNameOf a.name, lastNameOf a.name, a.email, jsOrNull a.phone⟩]) := by
  refine ⟨customerRowsOf_single, ?_⟩
  intro table env a w1 w2 hcfg
  unfold applyCustomers
  rw [customerRowsOf_single env a w1 hcfg, customerRowsOf_single env a w2 hcfg,
    List.append_assoc]
  rfl

/-- Concrete record-store configuration and arguments for C9. -/
def sbExampleEnv : Env := { SUPABASE_URL := some "https://sb.example", SUPABASE_SERVICE_KEY := some "srv" }

/-- Concrete submission arguments (with an email) for C9. -/
def sbExampleArgs : SbArgs := { type := "quote", name := "Jane Doe", email := some "jane@example.com" }

/-- C9 (witness): one concrete run issues exactly one customers insert. -/
theorem claim_c9_customer_insert_not_upsert_witness :
    customerRowsOf (insertSupabaseRecord sbExampleEnv sbExampleArgs {}).2 =
      [⟨firstNameOf sbExampleArgs.name, lastNameOf sbExampleArgs.name,
        sbExampleArgs.email, jsOrNull sbExampleArgs.phone⟩] :=
  claim_c9_customer_insert_not_upsert.1 sbExampleEnv sbExampleArgs {} (by decide)

/-- C9 (counterexample): two submissions carrying the same email leave two
customer rows in the store, not the single row the claim requires. -/
theorem claim_c9_counterexample :
    (applyCustomers (applyCustomers [] (insertSupabaseRecord sbExampleEnv sbExampleArgs {}).2)
      (insertSupabaseRecord sbExampleEnv sbExampleArgs {}).2).length = 2 ∧ (2 : ℕ) ≠ 1 := by
  have h := customerRowsOf_single sbExampleEnv sbExampleArgs {} (by decide)
  constructor
  · simp [applyCustomers, h]
  · decide


/-! ### String-containment walkers for template piece lists -/

theorem containsStr_sconcat_tail {t : String} (x : String) {l : List String}
    (h : ContainsStr (sconcat l) t) : ContainsStr (sconcat (x :: l)) t :=
  containsStr_appendL x h

theorem containsStr_sconcat_headT {x t : String} {l : List String}
    (h : ContainsStr x t) : ContainsStr (sconcat (x :: l)) t :=
  containsStr_appendR (sconcat l) h

theorem containsStr_sconcat_head (x : String) (l : List String) :
    ContainsStr (sconcat (x :: l)) x :=
  ⟨"", sconcat l, rfl⟩

theorem containsStr_sconcat_head3 (a b c : String) (l : List String) :
    ContainsStr (sconcat (a :: b :: c :: l)) (a ++ (b ++ c)) := by
  refine ⟨"", sconcat l, ?_⟩
  show a ++ (b ++ (c ++ sconcat l)) = "" ++ ((a ++ (b ++ c)) ++ sconcat l)
  simp only [String.append_assoc]
  rfl

/-! ### C6 — hosted invoice URL in response and customer email -/

theorem qce_cta_contains {c : QuoteCustomerArgs} {url : String}
    (hc : c.stripeInvoiceUrl = some url) :
    ContainsStr (qceInvoiceCta c) ("href=\"" ++ (url ++ "\"")) := by
  unfold qceInvoiceCta
  rw [show jsInterp c.stripeInvoiceUrl = url by rw [hc]; rfl]
  repeat first
    | exact containsStr_sconcat_head3 _ _ _ _
    | apply containsStr_sconcat_tail

theorem qce_contains_cta {c : QuoteCustomerArgs}
    (hcond : (c.invoiceOnly && jsTruthy c.stripeInvoiceUrl) = true) :
    ContainsStr (quoteCustomerEmail c) (qceInvoiceCta c) := by
  unfold quoteCustomerEmail
  simp only [hcond, if_true]
  repeat first
    | exact containsStr_sconcat_head _ _
    | apply containsStr_sconcat_tail

/-- C6 (amended): for every Quote submission with
`paymentPreference = "invoice_only"`, a configured invoice issuer, *and an
issuance that succeeds returning a non-empty hosted URL* (and a successful
business notification, so a success response is returned), the success
response carries exactly that URL, and the customer confirmation document
rendered with it embeds a payment link whose `href` is exactly that URL.
When issuance fails the handler continues with a null URL (see the
counterexample). -/
theorem claim_c6_hosted_invoice_url (env : Env) (data : SubmitData) (w : World) (url : String)
    (hpref : data.payment_preference = some "invoice_only")
    (hkey : jsTruthy env.STRIPE_SECRET_KEY = true)
    (hres : w.stripeResult = .ok (some url))
    (hbiz : w.businessEmailOk = true)
    (hurl : url ≠ "") :
    (handleQuoteRequest env data w).1.status = 200 ∧
    respInvoiceUrl (handleQuoteRequest env data w).1.body = some (some url) ∧
    ContainsStr (quoteCustomerEmail (quoteCustomerArgsOf data (some url)))
      ("href=\"" ++ (url ++ "\"")) := by
  refine ⟨?_, ?_, ?_⟩
  · simp [handleQuoteRequest, hpref, hkey, hres, hbiz]
  · simp [handleQuoteRequest, hpref, hkey, hres, hbiz, respInvoiceUrl]
  · refine containsStr_trans (qce_contains_cta ?_) (qce_cta_contains ?_)
    · simp [quoteCustomerArgsOf, hpref, jsTruthy, hurl]
    · simp [quoteCustomerArgsOf]

/-- Concrete environment for C6 (issuer configured). -/
def c6Env : Env := { RESEND_API_KEY := some "rk", STRIPE_SECRET_KEY := some "sk" }

/-- Concrete invoice-only Quote submission for C6. -/
def c6Data : SubmitData :=
  { type := some "quote", name := some "Jane Doe", email := some "jane@example.com",
    payment_preference := some "invoice_only" }

/-- C6 (witness): with a successful issuance returning a concrete URL, the
response carries it and the rendered customer email embeds the link. -/
theorem claim_c6_hosted_invoice_url_witness :
    (handleQuoteRequest c6Env c6Data
      { stripeResult := .ok (some "https://pay.example/inv_1") }).1.status = 200 ∧
    respInvoiceUrl (handleQuoteRequest c6Env c6Data
      { stripeResult := .ok (some "https://pay.example/inv_1") }).1.body =
        some (some "https://pay.example/inv_1") ∧
    ContainsStr (quoteCustomerEmail (quoteCustomerArgsOf c6Data
        (some "https://pay.example/inv_1")))
      ("href=\"" ++ ("https://pay.example/inv_1" ++ "\"")) :=
  claim_c6_hosted_invoice_url c6Env c6Data
    { stripeResult := .ok (some "https://pay.example/inv_1") }
    "https://pay.example/inv_1" rfl (by decide) rfl rfl (by decide)

/-- C6 (counterexample): invoice-only submission with a configured issuer
whose issuance call fails: the handler still answers 200 but with a null
`stripeInvoiceUrl`, so the response does not include a non-null hosted
invoice URL. -/
theorem claim_c6_counterexample :
    (handleQuoteRequest c6Env c6Data { stripeResult := .error () }).1 =
      ⟨200, .okQuote none true none⟩ ∧
    (none : Option String).isSome = false := by
  constructor
  · simp [handleQuoteRequest, c6Env, c6Data, insertSupabaseRecord, jsStr, jsOrNull, jsTruthy]
  · rfl


/-! ### C7 — unparseable or absent price -/

theorem containsStr_jsJoin_of_mem {x sep : String} {l : List String} (h : x ∈ l) :
    ContainsStr (jsJoin sep l) x := by
  induction l with
  | nil => cases h
  | cons s rest ih =>
      cases rest with
      | nil =>
          rcases List.mem_cons.mp h with h1 | h1
          · subst h1; exact containsStr_refl _
          · cases h1
      | cons y ys =>
          rcases List.mem_cons.mp h with h1 | h1
          · subst h1
            show ContainsStr (x ++ sep ++ jsJoin sep (y :: ys)) x
            exact containsStr_appendR _ (containsStr_appendR _ (containsStr_refl _))
          · show ContainsStr (s ++ sep ++ jsJoin sep (y :: ys)) x
            exact containsStr_appendL (s ++ sep) (ih h1)

theorem qbeUnpricedRow_contains_dash (item : AddonItem) :
    ContainsStr (qbeUnpricedRow item) "—" := by
  unfold qbeUnpricedRow
  apply containsStr_sconcat_tail
  apply containsStr_sconcat_tail
  apply containsStr_sconcat_headT
  exact ⟨"</td>
                      <td align=\"right\" style=\"padding:8px 10px;color:#555555;border-bottom:1px solid #F0EDE8;white-space:nowrap;\">", "</td>
                    </tr>", by rfl⟩

theorem qbe_contains_unpriced_row {a : QuoteEmailArgs} {item : AddonItem}
    (h : item ∈ (addonItemsOf a.product).filter addonUnpriced) :
    ContainsStr (quoteBusinessEmail a) (qbeUnpricedRow item) := by
  unfold quoteBusinessEmail
  repeat first
    | exact containsStr_sconcat_headT (containsStr_sconcat_of_mem (List.mem_map_of_mem _ h))
    | apply containsStr_sconcat_tail

theorem clickup_contains_guide_total (name email phone message submittedAt : Option String)
    (p : Product) :
    ContainsStr (buildQuoteClickUpDescription name email phone message p submittedAt)
      ("• Guide total: £" ++ formatPrice p.price) := by
  unfold buildQuoteClickUpDescription
  apply containsStr_jsJoin_of_mem
  repeat first
    | exact List.Mem.head _
    | apply List.Mem.tail

/-- C7 (amended): for every Quote whose `product.price` is absent or does
not parse, `grandTotal = 0` and `baseAmount = max(0, -addonTotal)` — which
is 0 whenever the add-on total is non-negative, but positive when an
add-on price parses negative (see the counterexample); rendering is total
(the renderers are plain functions producing a document for every input);
`formatPrice` shows the placeholder "—" exactly when the price is absent
or empty and echoes an unparseable non-empty string verbatim; the task
description always shows the formatted guide total, and every unpriced
add-on row of the business email shows "—" in its price cell. -/
theorem claim_c7_unparseable_price :
    (∀ p : Product, jsParseFloat p.price = none →
      totalPrice p = 0 ∧
      basePrice p = max 0 (-(addonTotal p)) ∧
      (0 ≤ addonTotal p → basePrice p = 0) ∧
      formatPrice p.price = jsOrStr p.price "—") ∧
    (formatPrice none = "—" ∧ formatPrice (some "") = "—") ∧
    (∀ (name email phone message submittedAt : Option String) (p : Product),
      ContainsStr (buildQuoteClickUpDescription name email phone message p submittedAt)
        ("• Guide total: £" ++ formatPrice p.price)) ∧
    (∀ (a : QuoteEmailArgs) (item : AddonItem),
      item ∈ (addonItemsOf a.product).filter addonUnpriced →
      ContainsStr (quoteBusinessEmail a) (qbeUnpricedRow item)) ∧
    (∀ item : AddonItem, ContainsStr (qbeUnpricedRow item) "—") := by
  refine ⟨?_, ⟨by simp [formatPrice, jsParseFloat, jsOrStr], ?_⟩,
    clickup_contains_guide_total, fun a item h => qbe_contains_unpriced_row h,
    qbeUnpricedRow_contains_dash⟩
  · intro p h
    have h2 : basePrice p = max 0 (-(addonTotal p)) := by
      unfold basePrice totalPrice
      rw [h]
      show max 0 (orZero none - addonTotal p) = max 0 (-(addonTotal p))
      simp [orZero, zero_sub]
    refine ⟨?_, h2, ?_, ?_⟩
    · unfold totalPrice
      rw [h]
      rfl
    · intro hat
      rw [h2]
      exact max_eq_left (neg_nonpos.mpr hat)
    · unfold formatPrice
      rw [h]
  · simp [formatPrice, jsParseFloat, parseFloatChars, readSign, readDigits, readExpo, isWsChar,
      jsOrStr]

/-- Concrete product for C7: unparseable price and a negative add-on price. -/
def c7Product : Product := { price := some "abc", addonLineItems := some [⟨some "X", some "-50"⟩] }

/-- C7 (witness): the amended facts at the concrete product. -/
theorem claim_c7_unparseable_price_witness :
    (totalPrice c7Product = 0 ∧
     basePrice c7Product = max 0 (-(addonTotal c7Product)) ∧
     (0 ≤ addonTotal c7Product → basePrice c7Product = 0) ∧
     formatPrice c7Product.price = jsOrStr c7Product.price "—") ∧
    ContainsStr (buildQuoteClickUpDescription (some "Jane Doe") (some "jane@example.com")
        none none c7Product (some "1 Jan 2026"))
      ("• Guide total: £" ++ formatPrice c7Product.price) ∧
    ContainsStr (qbeUnpricedRow ⟨some "X", some "-50"⟩) "—" :=
  ⟨claim_c7_unparseable_price.1 c7Product rfl,
   claim_c7_unparseable_price.2.2.1 (some "Jane Doe") (some "jane@example.com")
     none none (some "1 Jan 2026") c7Product,
   claim_c7_unparseable_price.2.2.2.2 ⟨some "X", some "-50"⟩⟩

/-- C7 (counterexample): with the unparseable price "abc" and add-on price
"-50" the base amount is 50, not 0, and the unavailable price is echoed as
"abc" rather than shown as the placeholder "—". -/
theorem claim_c7_counterexample :
    basePrice c7Product = 50 ∧
    (50 : ℚ) ≠ 0 ∧
    formatPrice (some "abc") = "abc" ∧ "abc" ≠ "—" := by
  refine ⟨?_, by norm_num, ?_, by decide⟩
  · simp [c7Product, basePrice, totalPrice, addonTotal, addonItemsOf, addonsFallback,
      jsParseFloat, parseFloatChars, readSign, readDigits, readExpo, isWsChar, orZero]
  · simp [formatPrice, jsParseFloat, parseFloatChars, readSign, readDigits, readExpo, isWsChar,
      jsOrStr]


/-! ### C8 — HTML escaping of user-supplied fields -/

theorem strData_append (s t : String) : (s ++ t).data = s.data ++ t.data := rfl

theorem escChar_no_specials (c : Char) (d : Char) (hd : d ∈ (escChar c).data) :
    d ≠ '<' ∧ d ≠ '>' ∧ d ≠ '"' ∧ d ≠ Char.ofNat 39 := by
  unfold escChar at hd
  by_cases h1 : c = '&'
  · simp [h1] at hd
    rcases hd with h | h | h | h | h <;> subst h <;>
      exact ⟨by decide, by decide, by decide, by decide⟩
  · by_cases h2 : c = '<'
    · simp [h1, h2] at hd
      rcases hd with h | h | h | h <;> subst h <;>
        exact ⟨by decide, by decide, by decide, by decide⟩
    · by_cases h3 : c = '>'
      · simp [h1, h2, h3] at hd
        rcases hd with h | h | h | h <;> subst h <;>
          exact ⟨by decide, by decide, by decide, by decide⟩
      · by_cases h4 : c = '"'
        · simp [h1, h2, h3, h4] at hd
          rcases hd with h | h | h | h | h | h <;> subst h <;>
            exact ⟨by decide, by decide, by decide, by decide⟩
        · by_cases h5 : c = Char.ofNat 39
          · simp [h1, h2, h3, h4, h5] at hd
            rcases hd with h | h | h | h | h <;> subst h <;>
              exact ⟨by decide, by decide, by decide, by decide⟩
          · simp [h1, h2, h3, h4, h5, String.singleton] at hd
            subst hd
            exact ⟨h2, h3, h4, h5⟩

theorem escList_no_specials (cs : List Char) (d : Char)
    (hd : d ∈ (sconcat (cs.map escChar)).data) :
    d ≠ '<' ∧ d ≠ '>' ∧ d ≠ '"' ∧ d ≠ Char.ofNat 39 := by
  induction cs with
  | nil => cases hd
  | cons c rest ih =>
      rw [List.map_cons,
        show sconcat (escChar c :: List.map escChar rest) =
          escChar c ++ sconcat (List.map escChar rest) from rfl,
        strData_append] at hd
      rcases List.mem_append.mp hd with h | h
      · exact escChar_no_specials c d h
      · exact ih h

theorem escStr_no_specials (s : String) (d : Char) (hd : d ∈ (escStr s).data) :
    d ≠ '<' ∧ d ≠ '>' ∧ d ≠ '"' ∧ d ≠ Char.ofNat 39 :=
  escList_no_specials s.data d hd

theorem qbe_contains_name (a : QuoteEmailArgs) :
    ContainsStr (quoteBusinessEmail a) (esc a.name) := by
  unfold quoteBusinessEmail
  repeat first
    | exact containsStr_sconcat_head _ _
    | apply containsStr_sconcat_tail

theorem qbe_contains_email (a : QuoteEmailArgs) :
    ContainsStr (quoteBusinessEmail a) (esc a.email) := by
  unfold quoteBusinessEmail
  repeat first
    | exact containsStr_sconcat_head _ _
    | apply containsStr_sconcat_tail

theorem qbe_contains_phone (a : QuoteEmailArgs) :
    ContainsStr (quoteBusinessEmail a) (escStr (jsOrStr a.phone "Not provided")) := by
  unfold quoteBusinessEmail
  repeat first
    | exact containsStr_sconcat_head _ _
    | apply containsStr_sconcat_tail

theorem qbe_contains_product_name (a : QuoteEmailArgs) :
    ContainsStr (quoteBusinessEmail a) (escStr (jsOrStr a.product.name "—")) := by
  unfold quoteBusinessEmail
  repeat first
    | exact containsStr_sconcat_head _ _
    | apply containsStr_sconcat_tail

theorem qbe_contains_product_type (a : QuoteEmailArgs) :
    ContainsStr (quoteBusinessEmail a) (escStr (jsOrStr a.product.type "—")) := by
  unfold quoteBusinessEmail
  repeat first
    | exact containsStr_sconcat_head _ _
    | apply containsStr_sconcat_tail

theorem qbe_contains_product_colour (a : QuoteEmailArgs) :
    ContainsStr (quoteBusinessEmail a) (escStr (jsOrStr a.product.colour "—")) := by
  unfold quoteBusinessEmail
  repeat first
    | exact containsStr_sconcat_head _ _
    | apply containsStr_sconcat_tail

theorem qbe_contains_size (a : QuoteEmailArgs) (h : jsTruthy a.product.size = true) :
    ContainsStr (quoteBusinessEmail a) (esc a.product.size) := by
  refine containsStr_trans (s := quoteBusinessEmail a) (t := qbeSizeRow a) ?_ ?_
  · unfold quoteBusinessEmail
    simp only [h, if_true]
    repeat first
      | exact containsStr_sconcat_head _ _
      | apply containsStr_sconcat_tail
  · unfold qbeSizeRow
    repeat first
      | exact containsStr_sconcat_head _ _
      | apply containsStr_sconcat_tail

theorem qbe_contains_location (a : QuoteEmailArgs) (h : jsTruthy a.location = true) :
    ContainsStr (quoteBusinessEmail a) (esc a.location) := by
  refine containsStr_trans (s := quoteBusinessEmail a) (t := qbeLocationRow a) ?_ ?_
  · unfold quoteBusinessEmail
    simp only [h, if_true]
    repeat first
      | exact containsStr_sconcat_head _ _
      | apply containsStr_sconcat_tail
  · unfold qbeLocationRow
    repeat first
      | exact containsStr_sconcat_head _ _
      | apply containsStr_sconcat_tail

theorem qbe_contains_message (a : QuoteEmailArgs) (h : jsTruthy a.message = true) :
    ContainsStr (quoteBusinessEmail a) (nl2br (esc a.message)) := by
  refine containsStr_trans (s := quoteBusinessEmail a) (t := qbeMessage a) ?_ ?_
  · unfold quoteBusinessEmail
    simp only [h, if_true]
    repeat first
      | exact containsStr_sconcat_head _ _
      | apply containsStr_sconcat_tail
  · unfold qbeMessage
    repeat first
      | exact containsStr_sconcat_head _ _
      | apply containsStr_sconcat_tail

theorem qbe_contains_inscription (a : QuoteEmailArgs) (h : inscriptionOf a.product ≠ "") :
    ContainsStr (quoteBusinessEmail a) (nl2br (escStr (inscriptionOf a.product))) := by
  refine containsStr_trans (s := quoteBusinessEmail a) (t := qbeInscription a) ?_ ?_
  · unfold quoteBusinessEmail
    rw [if_neg h]
    repeat first
      | exact containsStr_sconcat_head _ _
      | apply containsStr_sconcat_tail
  · unfold qbeInscription
    repeat first
      | exact containsStr_sconcat_head _ _
      | apply containsStr_sconcat_tail

theorem qbe_contains_image_raw (a : QuoteEmailArgs) (h : imageUrlOf a.product ≠ "") :
    ContainsStr (quoteBusinessEmail a) ("src=\"" ++ (imageUrlOf a.product ++ "\"")) := by
  refine containsStr_trans (s := quoteBusinessEmail a) (t := qbeImage a) ?_ ?_
  · unfold quoteBusinessEmail
    rw [if_neg h]
    repeat first
      | exact containsStr_sconcat_head _ _
      | apply containsStr_sconcat_tail
  · unfold qbeImage
    repeat first
      | exact containsStr_sconcat_head3 _ _ _ _
      | apply containsStr_sconcat_tail

theorem clickup_raw_name (name email phone message submittedAt : Option String) (p : Product) :
    ContainsStr (buildQuoteClickUpDescription name email phone message p submittedAt)
      ("• Name: " ++ jsInterp name) := by
  unfold buildQuoteClickUpDescription
  apply containsStr_jsJoin_of_mem
  repeat first
    | exact List.Mem.head _
    | apply List.Mem.tail

theorem clickup_raw_message (name email phone message submittedAt : Option String) (p : Product)
    (h : jsTruthy message = true) :
    ContainsStr (buildQuoteClickUpDescription name email phone message p submittedAt)
      ("CUSTOMER NOTES\n\"" ++ jsInterp message ++ "\"") := by
  unfold buildQuoteClickUpDescription
  simp only [h, if_true]
  apply containsStr_jsJoin_of_mem
  repeat first
    | exact List.Mem.head _
    | apply List.Mem.tail

/-- C8 (amended): every user-supplied *text* field of the business
notification email is embedded through the escaping helper `esc` (name,
email, phone, product name/type/colour/size, cemetery location, customer
message, inscription), and escaped output contains no raw `< > " '`
character, with the five specials rewritten to their HTML entities; the
product image URL is the exception — it is embedded raw in the `img src`
attribute (see the counterexample) — while the plain-text task description
embeds user text verbatim, unescaped. -/
theorem claim_c8_escaping :
    (∀ a : QuoteEmailArgs,
      ContainsStr (quoteBusinessEmail a) (esc a.name) ∧
      ContainsStr (quoteBusinessEmail a) (esc a.email) ∧
      ContainsStr (quoteBusinessEmail a) (escStr (jsOrStr a.phone "Not provided")) ∧
      ContainsStr (quoteBusinessEmail a) (escStr (jsOrStr a.product.name "—")) ∧
      ContainsStr (quoteBusinessEmail a) (escStr (jsOrStr a.product.type "—")) ∧
      ContainsStr (quoteBusinessEmail a) (escStr (jsOrStr a.product.colour "—")) ∧
      (jsTruthy a.product.size = true → ContainsStr (quoteBusinessEmail a) (esc a.product.size)) ∧
      (jsTruthy a.location = true → ContainsStr (quoteBusinessEmail a) (esc a.location)) ∧
      (jsTruthy a.message = true → ContainsStr (quoteBusinessEmail a) (nl2br (esc a.message))) ∧
      (inscriptionOf a.product ≠ "" →
        ContainsStr (quoteBusinessEmail a) (nl2br (escStr (inscriptionOf a.product))))) ∧
    (∀ (s : String) (d : Char), d ∈ (escStr s).data →
      d ≠ '<' ∧ d ≠ '>' ∧ d ≠ '"' ∧ d ≠ Char.ofNat 39) ∧
    escStr "&<>\x22\x27" = "&amp;&lt;&gt;&quot;&#39;" ∧
    (∀ (name email phone message submittedAt : Option String) (p : Product),
      ContainsStr (buildQuoteClickUpDescription name email phone message p submittedAt)
        ("• Name: " ++ jsInterp name) ∧
      (jsTruthy message = true →
        ContainsStr (buildQuoteClickUpDescription name email phone message p submittedAt)
          ("CUSTOMER NOTES\n\"" ++ jsInterp message ++ "\""))) :=
  ⟨fun a =>
    ⟨qbe_contains_name a, qbe_contains_email a, qbe_contains_phone a,
     qbe_contains_product_name a, qbe_contains_product_type a, qbe_contains_product_colour a,
     qbe_contains_size a, qbe_contains_location a, qbe_contains_message a,
     qbe_contains_inscription a⟩,
   escStr_no_specials,
   by decide,
   fun name email phone message submittedAt p =>
    ⟨clickup_raw_name name email phone message submittedAt p,
     clickup_raw_message name email phone message submittedAt p⟩⟩

/-- Concrete renderer arguments whose product image carries an attribute
injection. -/
def c8Args : QuoteEmailArgs :=
  { name := some "Jane", product := { image := some "http://e.com/\" onerror=\"alert(1)" } }

/-- C8 (witness): escaped embeddings at a concrete submission whose fields
contain HTML-special characters. -/
theorem claim_c8_escaping_witness :
    ContainsStr (quoteBusinessEmail { name := some "Jane & Co", message := some "a<b" })
      (esc (some "Jane & Co")) ∧
    ContainsStr (quoteBusinessEmail { name := some "Jane & Co", message := some "a<b" })
      (nl2br (esc (some "a<b"))) ∧
    ContainsStr (buildQuoteClickUpDescription (some "Jane & Co") none none (some "a<b") {} none)
      ("• Name: " ++ jsInterp (some "Jane & Co")) :=
  ⟨((claim_c8_escaping.1 { name := some "Jane & Co", message := some "a<b" }).1),
   ((claim_c8_escaping.1 { name := some "Jane & Co", message := some "a<b" }).2.2.2.2.2.2.2.2.1
     (by decide)),
   (claim_c8_escaping.2.2.2 (some "Jane & Co") none none (some "a<b") none {}).1⟩

/-- C8 (counterexample): the user-supplied `product.image` is embedded in
the markup document without escaping — the raw value, double quotes
included, lands inside the `img src` attribute, so not every user-supplied
text field is escaped. -/
theorem claim_c8_counterexample :
    ContainsStr (quoteBusinessEmail c8Args)
      ("src=\"" ++ ("http://e.com/\" onerror=\"alert(1)" ++ "\"")) ∧
    strContains "http://e.com/\" onerror=\"alert(1)" "\"" = true ∧
    escStr "http://e.com/\" onerror=\"alert(1)" ≠ "http://e.com/\" onerror=\"alert(1)" := by
  refine ⟨?_, by decide, by decide⟩
  have himg : imageUrlOf c8Args.product = "http://e.com/\" onerror=\"alert(1)" := by decide
  have hne : imageUrlOf c8Args.product ≠ "" := by
    rw [himg]
    decide
  have hcontains := qbe_contains_image_raw c8Args hne
  rw [himg] at hcontains
  exact hcontains

end SearsMelvin
